import Mathlib

/-
Verification of the MILP model-building logic of the TGE_CASE supply-chain
repository.  The four scenario-run variants
  - optimize/MASTER.py                     (run_scenario_master)
  - optimize/Scenario_Setting_For_SC2F_uns.py (run_scenario, slack variant)
  - SC1F.py                                (run_scenario, fixed network)
  - optimize/Scenario_Setting_For_SC1F.py  (run_scenario, fixed network with events)
are shallowly embedded over the rationals: the generated decision-variable
index sets, the linear constraints (as a predicate on an assignment of the
decision variables), the total-CO2 expression, the MASTER objective, the
observable mutations of caller-supplied mappings, and the status-dependent
post-solve value read-back.  All coefficients in the sources are finite
decimal literals and are represented exactly in Rat.  The one exception is
the default safety-stock column of MASTER (computed from a normal-quantile
closed form when the caller does not supply one, MASTER.py lines 204-232);
that irrational default enters only objective coefficients and is abstracted
as an explicit parameter ssNorm of the resolution function.
-/

namespace TGE

/-- Sum of a rational-valued function over a list, the shape of quicksum. -/
def sumOver {α : Type} (l : List α) (f : α → ℚ) : ℚ := (l.map f).sum

theorem sumOver_nil {α : Type} (f : α → ℚ) : sumOver [] f = 0 := rfl

theorem sumOver_cons {α : Type} (a : α) (l : List α) (f : α → ℚ) :
    sumOver (a :: l) f = f a + sumOver l f := by
  simp [sumOver]

theorem sumOver_zero {α : Type} (l : List α) : sumOver l (fun _ => (0 : ℚ)) = 0 := by
  induction l with
  | nil => rfl
  | cons a t ih => simp [sumOver_cons, ih]

theorem sumOver_nonneg {α : Type} (l : List α) (f : α → ℚ)
    (h : ∀ a ∈ l, 0 ≤ f a) : 0 ≤ sumOver l f := by
  induction l with
  | nil => simp [sumOver_nil]
  | cons a t ih =>
      rw [sumOver_cons]
      have ha : 0 ≤ f a := h a (List.mem_cons_self a t)
      have ht : 0 ≤ sumOver t f := ih (fun b hb => h b (List.mem_cons_of_mem a hb))
      linarith

theorem sumOver_le_length {α : Type} (l : List α) (f : α → ℚ)
    (h : ∀ a ∈ l, f a ≤ 1) : sumOver l f ≤ (l.length : ℚ) := by
  induction l with
  | nil => simp [sumOver_nil]
  | cons a t ih =>
      rw [sumOver_cons]
      have ha : f a ≤ 1 := h a (List.mem_cons_self a t)
      have ht : sumOver t f ≤ (t.length : ℚ) := ih (fun b hb => h b (List.mem_cons_of_mem a hb))
      have hlen : ((a :: t).length : ℚ) = (t.length : ℚ) + 1 := by
        rw [List.length_cons]; push_cast; ring
      rw [hlen]
      linarith

/-- If every term is at most 1 and at least 0 and the sum reaches the length,
every term equals 1 (used for the forced-binary constraint of MASTER). -/
theorem sumOver_eq_length_forces_one {α : Type} (l : List α) (f : α → ℚ)
    (h0 : ∀ a ∈ l, 0 ≤ f a) (h1 : ∀ a ∈ l, f a ≤ 1)
    (hs : sumOver l f = (l.length : ℚ)) : ∀ a ∈ l, f a = 1 := by
  induction l with
  | nil => intro a ha; cases ha
  | cons b t ih =>
      intro a ha
      rw [sumOver_cons] at hs
      have hb1 : f b ≤ 1 := h1 b (List.mem_cons_self b t)
      have htle : sumOver t f ≤ (t.length : ℚ) :=
        sumOver_le_length t f (fun c hc => h1 c (List.mem_cons_of_mem b hc))
      have hb0 : 0 ≤ f b := h0 b (List.mem_cons_self b t)
      have hlen : ((b :: t).length : ℚ) = (t.length : ℚ) + 1 := by
        rw [List.length_cons]; push_cast; ring
      have hfb : f b = 1 := by
        by_contra hne
        have hlt : f b < 1 := lt_of_le_of_ne hb1 hne
        have : f b + sumOver t f < (t.length : ℚ) + 1 := by linarith
        rw [hs, hlen] at this
        exact lt_irrefl _ this
      rcases List.mem_cons.mp ha with rfl | hat
      · exact hfb
      · have hst : sumOver t f = (t.length : ℚ) := by
          rw [hlen] at hs
          rw [hfb] at hs
          linarith
        exact ih (fun c hc => h0 c (List.mem_cons_of_mem b hc))
          (fun c hc => h1 c (List.mem_cons_of_mem b hc)) hst a hat

/-- Lookup in an association list of rationals; absent keys give 0.
The Python sources lookup keys that are always present on the paths the
claims exercise, so the 0 default is never observed there. -/
def lookupQ : List (String × ℚ) → String → ℚ
  | [], _ => 0
  | e :: t, k => if e.1 = k then e.2 else lookupQ t k

/-- An assignment of values to every decision-variable family any of the
four models can generate.  Coordinates that a given model does not generate
are simply never mentioned by that model's constraints or expressions. -/
structure Assign where
  f1 : String → String → String → ℚ   -- Plant, Crossdock, mode
  f2 : String → String → String → ℚ   -- Crossdock, DC, mode
  f2n : String → String → String → ℚ  -- NewLoc, DC, mode (source name f2_2 / f2_new)
  bin : String → ℚ                    -- NewLoc open binary (source name f2_2_bin)
  f3 : String → String → String → ℚ   -- DC, Retailer, mode
  v : String → ℚ                      -- unmet-demand slack per retailer (SC2F_uns)

/-- The all-zero assignment. -/
def zeroAssign : Assign :=
  { f1 := fun _ _ _ => 0, f2 := fun _ _ _ => 0, f2n := fun _ _ _ => 0,
    bin := fun _ => 0, f3 := fun _ _ _ => 0, v := fun _ => 0 }

-- ======================================================
-- Shared default network data (identical across the sources)
-- ======================================================

def PlantsAll : List String := ["TW", "SHA"]
def CrossdocksAll : List String := ["ATVIE", "PLGDN", "FRCDG"]
def NewLocsAll : List String := ["HUDTG", "CZMCT", "IEILG", "FIMPF", "PLZCA"]
def DcsAll : List String := ["PED", "FR6216", "RIX", "GMZ"]

def demandDefault : List (String × ℚ) :=
  [("FLUXC", 17000), ("ALKFM", 9000), ("KSJER", 13000), ("GXEQH", 19000),
   ("OAHLE", 15000), ("ISNQE", 20000), ("NAAVF", 18000)]

def dcCapacityDefault : String → ℚ := fun k =>
  if k = "PED" then 45000
  else if k = "FR6216" then 150000
  else if k = "RIX" then 75000
  else if k = "GMZ" then 100000
  else 0

def handlingDcDefault : String → ℚ := fun k =>
  if k = "PED" then 4.768269231
  else if k = "FR6216" then 5.675923077
  else if k = "RIX" then 4.426038462
  else if k = "GMZ" then 7.0865
  else 0

def handlingCrossdockDefault : String → ℚ := fun k =>
  if k = "ATVIE" then 6.533884615
  else if k = "PLGDN" then 4.302269231
  else if k = "FRCDG" then 5.675923077
  else 0

def sourcingCostDefault : String → ℚ := fun k =>
  if k = "TW" then 3.343692308
  else if k = "SHA" then 3.423384615
  else 0

def co2ProdDefault : String → ℚ := fun k =>
  if k = "TW" then 6.3
  else if k = "SHA" then 9.8
  else 0

def newLocCapacityDefault : List (String × ℚ) :=
  [("HUDTG", 37000), ("CZMCT", 45500), ("IEILG", 46000), ("FIMPF", 35000), ("PLZCA", 16500)]

def newLocOpeningCostDefault : String → ℚ := fun k =>
  if k = "HUDTG" then 7400000
  else if k = "CZMCT" then 9100000
  else if k = "IEILG" then 9200000
  else if k = "FIMPF" then 7000000
  else if k = "PLZCA" then 3300000
  else 0

def newLocOperationCostDefault : String → ℚ := fun k =>
  if k = "HUDTG" then 250000
  else if k = "CZMCT" then 305000
  else if k = "IEILG" then 450000
  else if k = "FIMPF" then 420000
  else if k = "PLZCA" then 412500
  else 0

def newLocCO2Default : String → ℚ := fun k =>
  if k = "HUDTG" then 3.2
  else if k = "CZMCT" then 2.8
  else if k = "IEILG" then 4.6
  else if k = "FIMPF" then 5.8
  else if k = "PLZCA" then 6.2
  else 0

def co2EmissionFactorDefault : String → ℚ := fun k =>
  if k = "air" then 0.000971
  else if k = "sea" then 0.000027
  else if k = "road" then 0.000076
  else 0

/-- Plant to Crossdock distances in km (same table in all sources). -/
def dist1Default : String → String → ℚ := fun a b =>
  if a = "TW" then
    (if b = "ATVIE" then 8997.94617146616
    else if b = "PLGDN" then 8558.96520835034
    else if b = "FRCDG" then 9812.38584027454
    else 0)
  else if a = "SHA" then
    (if b = "ATVIE" then 8468.71339377354
    else if b = "PLGDN" then 7993.62774285959
    else if b = "FRCDG" then 9240.26233801075
    else 0)
  else 0

/-- Crossdock to DC distances in km. -/
def dist2Default : String → String → ℚ := fun a b =>
  if a = "ATVIE" then
    (if b = "PED" then 220.423995674989
    else if b = "FR6216" then 1019.43140587827
    else if b = "RIX" then 1098.71652257982
    else if b = "GMZ" then 1262.62587924823
    else 0)
  else if a = "PLGDN" then
    (if b = "PED" then 519.161031102087
    else if b = "FR6216" then 1154.87176862626
    else if b = "RIX" then 440.338211856603
    else if b = "GMZ" then 1855.94939751482
    else 0)
  else if a = "FRCDG" then
    (if b = "PED" then 962.668288266132
    else if b = "FR6216" then 149.819604703365
    else if b = "RIX" then 1675.455462176
    else if b = "GMZ" then 2091.1437090641
    else 0)
  else 0

/-- NewLoc to DC distances in km (source name dist2_2 / dist2_new). -/
def dist2newDefault : String → String → ℚ := fun a b =>
  if a = "HUDTG" then
    (if b = "PED" then 367.762425639798
    else if b = "FR6216" then 1216.10262027458
    else if b = "RIX" then 1098.57245368619
    else if b = "GMZ" then 1120.13248546123
    else 0)
  else if a = "CZMCT" then
    (if b = "PED" then 98.034644813461
    else if b = "FR6216" then 818.765381327031
    else if b = "RIX" then 987.72775809091
    else if b = "GMZ" then 1529.9990581232
    else 0)
  else if a = "IEILG" then
    (if b = "PED" then 1558.60889112091
    else if b = "FR6216" then 714.077816812742
    else if b = "RIX" then 1949.83469918776
    else if b = "GMZ" then 2854.35402610261
    else 0)
  else if a = "FIMPF" then
    (if b = "PED" then 1265.72892702748
    else if b = "FR6216" then 1758.18103997611
    else if b = "RIX" then 367.698822815676
    else if b = "GMZ" then 2461.59771450036
    else 0)
  else if a = "PLZCA" then
    (if b = "PED" then 437.686419974076
    else if b = "FR6216" then 1271.77800922148
    else if b = "RIX" then 554.373376462774
    else if b = "GMZ" then 1592.14058614186
    else 0)
  else 0

/-- DC to Retailer distances in km. -/
def dist3Default : String → String → ℚ := fun a b =>
  if a = "PED" then
    (if b = "FLUXC" then 1184.65051865833
    else if b = "ALKFM" then 933.730015948432
    else if b = "KSJER" then 557.144058480586
    else if b = "GXEQH" then 769.757089072695
    else if b = "OAHLE" then 2147.98445345001
    else if b = "ISNQE" then 2315.79621115423
    else if b = "NAAVF" then 1590.07662902924
    else 0)
  else if a = "FR6216" then
    (if b = "FLUXC" then 311.994969562194
    else if b = "ALKFM" then 172.326685809878
    else if b = "KSJER" then 622.433010022067
    else if b = "GXEQH" then 1497.40239816531
    else if b = "OAHLE" then 1387.73696467636
    else if b = "ISNQE" then 1585.6370207201
    else if b = "NAAVF" then 1984.31926933368
    else 0)
  else if a = "RIX" then
    (if b = "FLUXC" then 1702.34810062205
    else if b = "ALKFM" then 1664.62283033352
    else if b = "KSJER" then 942.985120680279
    else if b = "GXEQH" then 222.318687415142
    else if b = "OAHLE" then 2939.50970842422
    else if b = "ISNQE" then 3128.54724287652
    else if b = "NAAVF" then 713.715034612432
    else 0)
  else if a = "GMZ" then
    (if b = "FLUXC" then 2452.23922908608
    else if b = "ALKFM" then 2048.41487682505
    else if b = "KSJER" then 2022.91355628344
    else if b = "GXEQH" then 1874.11994156457
    else if b = "OAHLE" then 2774.73634842816
    else if b = "ISNQE" then 2848.65086298747
    else if b = "NAAVF" then 2806.05576441898
    else 0)
  else 0

/-- The hardcoded safety-stock values written into the data mapping at
MASTER.py line 235 and used as the SS column by the SC2F and SC1F scenario
variants (per mode: air, sea, road). -/
def ssHardcoded : List ℚ := [2109.25627631292, 12055.4037653689, 5711.89299799521]

/-- The per-mode data table supplied through the data keyword argument.
The sources key the columns by the transportation index list; optional
columns are present only when the caller provides them.  zcol and phicol
are the Z-score and density columns that the SC2F slack variant writes
into the caller-supplied mapping (SC2F_uns lines 122-123); MASTER stores
its Z-score and density columns only in the local DataFrame, never in the
caller mapping. -/
structure DataTable where
  modes : List String
  t : List ℚ
  hcol : Option (List ℚ)
  lt : Option (List ℚ)
  ss : Option (List ℚ)
  zcol : Option (List ℚ) := none
  phicol : Option (List ℚ) := none
deriving DecidableEq

/-- Default data table (transportation plus the t column only). -/
def dataDefault : DataTable :=
  { modes := ["air", "sea", "road"], t := [0.0105, 0.0013, 0.0054],
    hcol := none, lt := none, ss := none }

/-- Column lookup in a data table: the value aligned with a given mode. -/
def colLookup (modes : List String) (col : List ℚ) (mo : String) : ℚ :=
  lookupQ (modes.zip col) mo

/-- Default lead-time column of MASTER (lines 209-214): 9600 km benchmark
distance, a 1.2 factor for sea, speeds air 800, sea 10, road 40 km per hour,
divided by 24 h.  All three values are exact rationals. -/
def ltMasterDefault : String → ℚ := fun k =>
  if k = "air" then 1/2
  else if k = "sea" then 48
  else if k = "road" then 10
  else 0

-- ======================================================
-- MASTER.py run_scenario_master
-- ======================================================

namespace MASTER

/-- The keyword arguments of run_scenario_master that the model depends on.
Python parameters defaulting to None with an in-function default dictionary
are represented as plain fields whose default field value is that in-function
default; Option is kept where the None-ness itself drives logic (active set
and mode selection, per-location flags).  Dictionaries that the function only
looks up (never iterates) are represented as total functions on String. -/
structure In where
  activePlants : Option (List String) := none
  activeNewLocs : Option (List String) := none
  activeCrossdocks : Option (List String) := none
  activeDcs : Option (List String) := none
  activeModesL1 : Option (List String) := none
  activeModesL2 : Option (List String) := none
  activeModesL3 : Option (List String) := none
  dcCapacity : String → ℚ := TGE.dcCapacityDefault
  demand : List (String × ℚ) := TGE.demandDefault
  handlingDc : String → ℚ := TGE.handlingDcDefault
  handlingCrossdock : String → ℚ := TGE.handlingCrossdockDefault
  sourcingCost : String → ℚ := TGE.sourcingCostDefault
  co2ProdKgPerUnit : String → ℚ := TGE.co2ProdDefault
  productWeight : ℚ := 2.58
  co2CostPerTon : ℚ := 37.50
  co2CostPerTonNew : ℚ := 60.00
  CO2base : ℚ := 1582.42366689614
  newLocCapacity : List (String × ℚ) := TGE.newLocCapacityDefault
  newLocOpeningCost : String → ℚ := TGE.newLocOpeningCostDefault
  newLocOperationCost : String → ℚ := TGE.newLocOperationCostDefault
  newLocCO2 : String → ℚ := TGE.newLocCO2Default
  co2EmissionFactor : String → ℚ := TGE.co2EmissionFactorDefault
  data : TGE.DataTable := TGE.dataDefault
  dist1 : String → String → ℚ := TGE.dist1Default
  dist2 : String → String → ℚ := TGE.dist2Default
  dist2new : String → String → ℚ := TGE.dist2newDefault
  dist3 : String → String → ℚ := TGE.dist3Default
  lastmileUnitCost : ℚ := 6.25
  lastmileCO2kg : ℚ := 2.68
  CO2max : Option ℚ := none          -- accepted but never read by the source
  CO2percentage : ℚ := 0.5
  unitPenaltyCost : ℚ := 1.7         -- accepted but never read by the source
  unitInventoryHoldingCost : ℚ := 0.85
  serviceLevel : ℚ := 0.9
  isHUDTG : Option Bool := none
  isCZMCT : Option Bool := none
  isIEILG : Option Bool := none
  isFIMPF : Option Bool := none
  isPLZCA : Option Bool := none
  suezCanal : Bool := false
  oilCrises : Bool := false
  volcano : Bool := false
  tradeWar : Bool := false
  tariffRate : ℚ := 1

/-- Retailers, taken from the keys of the demand mapping (line 137). -/
def retailersOf (inp : In) : List String := inp.demand.map Prod.fst

/-- Active plants (line 290). -/
def plantsOf (inp : In) : List String := inp.activePlants.getD TGE.PlantsAll

/-- Active new locations: the base list, filtered by the per-location flags
when any flag is explicitly provided (lines 287-306). -/
def newLocsOf (inp : In) : List String :=
  let base := inp.activeNewLocs.getD TGE.NewLocsAll
  let flags : List (String × Option Bool) :=
    [("HUDTG", inp.isHUDTG), ("CZMCT", inp.isCZMCT), ("IEILG", inp.isIEILG),
     ("FIMPF", inp.isFIMPF), ("PLZCA", inp.isPLZCA)]
  if flags.any (fun e => e.2.isSome) then
    base.filter (fun n => flags.any (fun e => e.1 == n && e.2.getD false))
  else base

/-- Active crossdocks (line 307). -/
def crossdocksOf (inp : In) : List String := inp.activeCrossdocks.getD TGE.CrossdocksAll

/-- Active DCs (line 308). -/
def dcsOf (inp : In) : List String := inp.activeDcs.getD TGE.DcsAll

/-- Layer-1 modes after the volcano removal of air (lines 311-326).
Python list.remove drops the first occurrence, as List.erase does. -/
def modesL1Of (inp : In) : List String :=
  let m := inp.activeModesL1.getD ["air", "sea"]
  if inp.volcano then m.erase "air" else m

/-- Layer-2 modes after the volcano removal of air. -/
def modesL2Of (inp : In) : List String :=
  let m := inp.activeModesL2.getD ["air", "sea", "road"]
  if inp.volcano then m.erase "air" else m

/-- Layer-3 modes after the volcano removal of air. -/
def modesL3Of (inp : In) : List String :=
  let m := inp.activeModesL3.getD ["air", "sea", "road"]
  if inp.volcano then m.erase "air" else m

/-- The fully resolved scenario: active sets, modes, and every coefficient
the generated model reads. -/
structure Scen where
  Plants : List String
  Crossdocks : List String
  New_Locs : List String
  Dcs : List String
  Retailers : List String
  ModesL1 : List String
  ModesL2 : List String
  ModesL3 : List String
  demand : List (String × ℚ)
  dcCap : String → ℚ
  handlingDc : String → ℚ
  handlingCd : String → ℚ
  sourcing : String → ℚ
  co2prod : String → ℚ
  nlCap : String → ℚ
  nlOpen : String → ℚ
  nlUnit : String → ℚ
  nlCO2 : String → ℚ
  co2f : String → ℚ
  tau : String → ℚ
  ss : String → ℚ
  lt : String → ℚ
  hC : String → ℚ
  dist1 : String → String → ℚ
  dist2 : String → String → ℚ
  dist2new : String → String → ℚ
  dist3 : String → String → ℚ
  pw : ℚ
  pwTon : ℚ
  co2CostT : ℚ
  co2CostTNew : ℚ
  CO2base : ℚ
  pct : ℚ
  lastmileCost : ℚ
  lastmileCO2kg : ℚ
  suez : Bool
  volcano : Bool

/-- Resolution of run_scenario_master sections 1-3: sets and modes, the
per-mode table df (t, h, LT, SS columns), the oil-crisis scaling of tau
(times 1.3, lines 336-338), the trade-war scaling of sourcing cost
(times tariff_rate, lines 341-343), the derived per-unit cost of new
locations (100000 divided by capacity, lines 348-351).  ssNorm stands for
the normal-quantile safety-stock column computed at lines 216-232 when the
data table carries no SS column; it is irrational and hence abstracted. -/
def scenOf (inp : In) (ssNorm : String → ℚ) : Scen :=
  { Plants := plantsOf inp
    Crossdocks := crossdocksOf inp
    New_Locs := newLocsOf inp
    Dcs := dcsOf inp
    Retailers := retailersOf inp
    ModesL1 := modesL1Of inp
    ModesL2 := modesL2Of inp
    ModesL3 := modesL3Of inp
    demand := inp.demand
    dcCap := inp.dcCapacity
    handlingDc := inp.handlingDc
    handlingCd := inp.handlingCrossdock
    sourcing := fun p =>
      if inp.tradeWar then inp.sourcingCost p * inp.tariffRate else inp.sourcingCost p
    co2prod := inp.co2ProdKgPerUnit
    nlCap := TGE.lookupQ inp.newLocCapacity
    nlOpen := inp.newLocOpeningCost
    nlUnit := fun n => 100000 / TGE.lookupQ inp.newLocCapacity n
    nlCO2 := inp.newLocCO2
    co2f := inp.co2EmissionFactor
    tau := fun mo =>
      (if inp.oilCrises then (1.3 : ℚ) else 1) * TGE.colLookup inp.data.modes inp.data.t mo
    ss := match inp.data.ss with
      | some col => TGE.colLookup inp.data.modes col
      | none => ssNorm
    lt := match inp.data.lt with
      | some col => TGE.colLookup inp.data.modes col
      | none => TGE.ltMasterDefault
    hC := match inp.data.hcol with
      | some col => TGE.colLookup inp.data.modes col
      | none => fun _ => inp.unitInventoryHoldingCost
    dist1 := inp.dist1
    dist2 := inp.dist2
    dist2new := inp.dist2new
    dist3 := inp.dist3
    pw := inp.productWeight
    pwTon := inp.productWeight / 1000
    co2CostT := inp.co2CostPerTon
    co2CostTNew := inp.co2CostPerTonNew
    CO2base := inp.CO2base
    pct := inp.CO2percentage
    lastmileCost := inp.lastmileUnitCost
    lastmileCO2kg := inp.lastmileCO2kg
    suez := inp.suezCanal
    volcano := inp.volcano }

/-- Whether the f1 variable family (Plant to Crossdock) is generated
(line 361): all three index lists nonempty. -/
def hasF1 (s : Scen) : Bool :=
  !(s.Plants.isEmpty || s.Crossdocks.isEmpty || s.ModesL1.isEmpty)

/-- Whether the f2 family (Crossdock to DC) is generated (line 369). -/
def hasF2 (s : Scen) : Bool :=
  !(s.Crossdocks.isEmpty || s.Dcs.isEmpty || s.ModesL2.isEmpty)

/-- Whether the f2_new family and the open binaries are generated (line 378). -/
def hasF2n (s : Scen) : Bool :=
  !(s.New_Locs.isEmpty || s.Dcs.isEmpty || s.ModesL2.isEmpty)

/-- Whether the f3 family (DC to Retailer) is generated (line 390). -/
def hasF3 (s : Scen) : Bool :=
  !(s.Dcs.isEmpty || s.Retailers.isEmpty || s.ModesL3.isEmpty)

/-- Whether a mode name is a key of the hardcoded speed and service-level
dictionaries of the safety-stock derivation (lines 196-213). -/
def modeKnown (m : String) : Bool := m == "air" || m == "sea" || m == "road"

/-- The sum of the demand values (source variable total_demand, line 498). -/
def totalDemandIn (inp : In) : ℚ := (inp.demand.map Prod.snd).sum

/-- Python-level failures of run_scenario_master before any result is
returned, in source order.  A data table without an SS column enters the
safety-stock derivation, whose speed and service-level lookups (lines
211 and 216) raise KeyError for an index mode outside air, sea, road.  A
zero capacity entry raises ZeroDivisionError at the per-unit-cost
derivation (line 350).  Each transport-cost expression looks up tau for
every mode of its layer when the layer's flow family exists (lines 405,
414, 423, 432), raising KeyError for a mode absent from the data-table
index.  A data table with an SS column but no LT column raises KeyError at
the first inventory-cost expression when any flow family exists (line 504).
When any flow family exists and the demand values sum to zero, the
inventory coefficient SS over total_demand (line 505) is nonfinite (inf,
or nan for the derived SS of an empty demand mapping), and likewise the
derived SS column is nan for a service level outside the unit interval;
the solver rejects the nonfinite coefficient, so no result is returned.
Finally the forced-binary constraint at line 688 indexes the plain empty
dict f2_2_bin when New_Locs is nonempty while no f2_new variables were
created, raising KeyError.  Mappings that the embedding represents as
total functions (the coefficient dictionaries keyed by node names and the
distance frames) cannot fail lookup by construction; the finitely keyed
data table and the mode lists can, and are checked here. -/
def buildErr (inp : In) : Option String :=
  let s := scenOf inp (fun _ => 0)
  if inp.data.ss.isNone && inp.data.modes.any (fun m => !(modeKnown m)) then
    some "KeyError in the safety-stock derivation"
  else if inp.newLocCapacity.any (fun e => e.2 == 0) then
    some "ZeroDivisionError at new_loc_unitCost"
  else if hasF1 s && s.ModesL1.any (fun mo => !(inp.data.modes.any (fun m => m == mo))) then
    some "KeyError: tau on layer 1"
  else if (hasF2 s || hasF2n s) &&
      s.ModesL2.any (fun mo => !(inp.data.modes.any (fun m => m == mo))) then
    some "KeyError: tau on layer 2"
  else if hasF3 s && s.ModesL3.any (fun mo => !(inp.data.modes.any (fun m => m == mo))) then
    some "KeyError: tau on layer 3"
  else if inp.data.ss.isSome && inp.data.lt.isNone &&
      (hasF1 s || hasF2 s || hasF2n s || hasF3 s) then
    some "KeyError: LT (days)"
  else if (hasF1 s || hasF2 s || hasF2n s || hasF3 s) = true ∧
      (totalDemandIn inp = 0 ∨
        (inp.data.ss = none ∧ (inp.serviceLevel < 0 ∨ 1 < inp.serviceLevel))) then
    some "nonfinite inventory coefficient"
  else if !(s.New_Locs.isEmpty) && (s.Dcs.isEmpty || s.ModesL2.isEmpty) then
    some "KeyError: f2_2_bin"
  else none

/-- Model construction as the source performs it: either a Python-level
error or the resolved scenario whose constraints and objective are the
predicates and expressions below. -/
def build (inp : In) (ssNorm : String → ℚ) : Except String Scen :=
  match buildErr inp with
  | some e => .error e
  | none => .ok (scenOf inp ssNorm)

/-- Inbound flow of one retailer, summed over DCs and layer-3 modes
(the left side of the Demand constraint, line 628). -/
def retailerInbound (s : Scen) (x : TGE.Assign) (r : String) : ℚ :=
  TGE.sumOver s.Dcs fun d => TGE.sumOver s.ModesL3 fun mo => x.f3 d r mo

/-- Inbound flow of one DC: from crossdocks and from new locations
(line 638-639). -/
def dcInbound (s : Scen) (x : TGE.Assign) (d : String) : ℚ :=
  (TGE.sumOver s.Crossdocks fun c => TGE.sumOver s.ModesL2 fun mo => x.f2 c d mo) +
  (TGE.sumOver s.New_Locs fun n => TGE.sumOver s.ModesL2 fun mo => x.f2n n d mo)

/-- Outbound flow of one DC towards retailers (line 641). -/
def dcOutbound (s : Scen) (x : TGE.Assign) (d : String) : ℚ :=
  TGE.sumOver s.Retailers fun r => TGE.sumOver s.ModesL3 fun mo => x.f3 d r mo

/-- Inbound flow of one crossdock from plants (line 651). -/
def cdInbound (s : Scen) (x : TGE.Assign) (c : String) : ℚ :=
  TGE.sumOver s.Plants fun p => TGE.sumOver s.ModesL1 fun mo => x.f1 p c mo

/-- Outbound flow of one crossdock towards DCs (line 653). -/
def cdOutbound (s : Scen) (x : TGE.Assign) (c : String) : ℚ :=
  TGE.sumOver s.Dcs fun d => TGE.sumOver s.ModesL2 fun mo => x.f2 c d mo

/-- Outbound flow of one new location (line 674). -/
def nlOutbound (s : Scen) (x : TGE.Assign) (n : String) : ℚ :=
  TGE.sumOver s.Dcs fun d => TGE.sumOver s.ModesL2 fun mo => x.f2n n d mo

/-- Production CO2 at the existing plants in tons (lines 550-556). -/
def CO2_prod_L1 (s : Scen) (x : TGE.Assign) : ℚ :=
  TGE.sumOver s.Plants fun p =>
    (s.co2prod p / 1000) *
      (TGE.sumOver s.Crossdocks fun c => TGE.sumOver s.ModesL1 fun mo => x.f1 p c mo)

/-- Production CO2 at the new locations in tons (lines 559-565). -/
def CO2_prod_new (s : Scen) (x : TGE.Assign) : ℚ :=
  TGE.sumOver s.New_Locs fun n =>
    (s.nlCO2 n / 1000) *
      (TGE.sumOver s.Dcs fun d => TGE.sumOver s.ModesL2 fun mo => x.f2n n d mo)

/-- Transport CO2 on layer 1, summed over modes (lines 568-574, 601). -/
def CO2_tr_L1 (s : Scen) (x : TGE.Assign) : ℚ :=
  TGE.sumOver s.ModesL1 fun mo => TGE.sumOver s.Plants fun p =>
    TGE.sumOver s.Crossdocks fun c =>
      s.co2f mo * s.dist1 p c * s.pwTon * x.f1 p c mo

/-- Transport CO2 on layer 2 from crossdocks (lines 576-582, 602). -/
def CO2_tr_L2 (s : Scen) (x : TGE.Assign) : ℚ :=
  TGE.sumOver s.ModesL2 fun mo => TGE.sumOver s.Crossdocks fun c =>
    TGE.sumOver s.Dcs fun d =>
      s.co2f mo * s.dist2 c d * s.pwTon * x.f2 c d mo

/-- Transport CO2 on layer 2 from new locations (lines 584-590, 603). -/
def CO2_tr_L2_new (s : Scen) (x : TGE.Assign) : ℚ :=
  TGE.sumOver s.ModesL2 fun mo => TGE.sumOver s.New_Locs fun n =>
    TGE.sumOver s.Dcs fun d =>
      s.co2f mo * s.dist2new n d * s.pwTon * x.f2n n d mo

/-- Transport CO2 on layer 3 (lines 592-598, 604). -/
def CO2_tr_L3 (s : Scen) (x : TGE.Assign) : ℚ :=
  TGE.sumOver s.ModesL3 fun mo => TGE.sumOver s.Dcs fun d =>
    TGE.sumOver s.Retailers fun r =>
      s.co2f mo * s.dist3 d r * s.pwTon * x.f3 d r mo

/-- Last-mile CO2 in tons (lines 607-611). -/
def LastMile_CO2 (s : Scen) (x : TGE.Assign) : ℚ :=
  (s.lastmileCO2kg / 1000) *
    (TGE.sumOver s.Dcs fun d => TGE.sumOver s.Retailers fun r =>
      TGE.sumOver s.ModesL3 fun mo => x.f3 d r mo)

/-- Aggregate CO2: production at plants and new locations, transport on all
layers, last mile (line 613).  Empty variable families contribute empty
sums, matching the source where the guarded expressions default to 0. -/
def Total_CO2 (s : Scen) (x : TGE.Assign) : ℚ :=
  CO2_prod_L1 s x + CO2_prod_new s x + CO2_tr_L1 s x + CO2_tr_L2 s x +
    CO2_tr_L2_new s x + CO2_tr_L3 s x + LastMile_CO2 s x

/-- Total demand (line 497). -/
def totalDemand (s : Scen) : ℚ := (s.demand.map Prod.snd).sum

/-- Inventory coefficient per mode: LT times h plus SS over total demand
(lines 502-507). -/
def invCoef (s : Scen) (mo : String) : ℚ :=
  s.lt mo * s.hC mo + s.ss mo / totalDemand s

/-- Sourcing cost at the plants (lines 470-477). -/
def Sourcing_L1 (s : Scen) (x : TGE.Assign) : ℚ :=
  TGE.sumOver s.Plants fun p => TGE.sumOver s.Crossdocks fun c =>
    TGE.sumOver s.ModesL1 fun mo => s.sourcing p * x.f1 p c mo

/-- Crossdock handling cost (lines 451-458). -/
def Handling_L2 (s : Scen) (x : TGE.Assign) : ℚ :=
  TGE.sumOver s.Crossdocks fun c => TGE.sumOver s.Dcs fun d =>
    TGE.sumOver s.ModesL2 fun mo => s.handlingCd c * x.f2 c d mo

/-- DC handling cost (lines 460-467). -/
def Handling_L3 (s : Scen) (x : TGE.Assign) : ℚ :=
  TGE.sumOver s.Dcs fun d => TGE.sumOver s.Retailers fun r =>
    TGE.sumOver s.ModesL3 fun mo => s.handlingDc d * x.f3 d r mo

/-- Last-mile cost (lines 444-448). -/
def LastMile_Cost (s : Scen) (x : TGE.Assign) : ℚ :=
  s.lastmileCost * (TGE.sumOver s.Dcs fun d => TGE.sumOver s.Retailers fun r =>
    TGE.sumOver s.ModesL3 fun mo => x.f3 d r mo)

/-- Manufacturing CO2 cost at existing and new production sites
(lines 616-618). -/
def CO2_Mfg (s : Scen) (x : TGE.Assign) : ℚ :=
  s.co2CostT * CO2_prod_L1 s x + s.co2CostTNew * CO2_prod_new s x

/-- Transport cost over all four flow families (lines 402-441). -/
def Total_Transport (s : Scen) (x : TGE.Assign) : ℚ :=
  (TGE.sumOver s.ModesL1 fun mo => TGE.sumOver s.Plants fun p =>
    TGE.sumOver s.Crossdocks fun c => s.tau mo * s.dist1 p c * s.pw * x.f1 p c mo) +
  (TGE.sumOver s.ModesL2 fun mo => TGE.sumOver s.Crossdocks fun c =>
    TGE.sumOver s.Dcs fun d => s.tau mo * s.dist2 c d * s.pw * x.f2 c d mo) +
  (TGE.sumOver s.ModesL2 fun mo => TGE.sumOver s.New_Locs fun n =>
    TGE.sumOver s.Dcs fun d => s.tau mo * s.dist2new n d * s.pw * x.f2n n d mo) +
  (TGE.sumOver s.ModesL3 fun mo => TGE.sumOver s.Dcs fun d =>
    TGE.sumOver s.Retailers fun r => s.tau mo * s.dist3 d r * s.pw * x.f3 d r mo)

/-- Transit-inventory cost over all four flow families (lines 499-543). -/
def Total_InvCost (s : Scen) (x : TGE.Assign) : ℚ :=
  (TGE.sumOver s.Plants fun p => TGE.sumOver s.Crossdocks fun c =>
    TGE.sumOver s.ModesL1 fun mo => x.f1 p c mo * invCoef s mo) +
  (TGE.sumOver s.Crossdocks fun c => TGE.sumOver s.Dcs fun d =>
    TGE.sumOver s.ModesL2 fun mo => x.f2 c d mo * invCoef s mo) +
  (TGE.sumOver s.New_Locs fun n => TGE.sumOver s.Dcs fun d =>
    TGE.sumOver s.ModesL2 fun mo => x.f2n n d mo * invCoef s mo) +
  (TGE.sumOver s.Dcs fun d => TGE.sumOver s.Retailers fun r =>
    TGE.sumOver s.ModesL3 fun mo => x.f3 d r mo * invCoef s mo)

/-- New-location variable cost (lines 480-485). -/
def Cost_NewLoc_var (s : Scen) (x : TGE.Assign) : ℚ :=
  TGE.sumOver s.New_Locs fun n => TGE.sumOver s.Dcs fun d =>
    TGE.sumOver s.ModesL2 fun mo => s.nlUnit n * x.f2n n d mo

/-- New-location fixed opening cost, gated by the open binaries
(lines 487-492). -/
def Cost_NewLoc_fixed (s : Scen) (x : TGE.Assign) : ℚ :=
  TGE.sumOver s.New_Locs fun n => s.nlOpen n * x.bin n

/-- The objective of run_scenario_master (lines 747-757): sourcing,
handling, last mile, manufacturing CO2 cost, transport, inventory, and the
new-location variable and fixed costs. -/
def Obj (s : Scen) (x : TGE.Assign) : ℚ :=
  Sourcing_L1 s x + Handling_L2 s x + Handling_L3 s x + LastMile_Cost s x +
    CO2_Mfg s x + Total_Transport s x + Total_InvCost s x +
    (Cost_NewLoc_var s x + Cost_NewLoc_fixed s x)

/-- The Demand constraint family is generated only when the f3 variables
exist (lines 625-632); this list records the retailers it covers. -/
def demandRows (s : Scen) : List String :=
  if hasF3 s then s.Retailers else []

/-- The feasible set of the model generated by run_scenario_master
(sections 4 and 6 of the source): variable lower bounds, binary domains,
demand satisfaction, both balance families, both capacity families, the
CO2 cap, the forced-binary constraint of line 688, and the scenario-event
zeroing constraints. -/
def Feasible (s : Scen) (x : TGE.Assign) : Prop :=
  (∀ p ∈ s.Plants, ∀ c ∈ s.Crossdocks, ∀ mo ∈ s.ModesL1, 0 ≤ x.f1 p c mo) ∧
  (∀ c ∈ s.Crossdocks, ∀ d ∈ s.Dcs, ∀ mo ∈ s.ModesL2, 0 ≤ x.f2 c d mo) ∧
  (∀ n ∈ s.New_Locs, ∀ d ∈ s.Dcs, ∀ mo ∈ s.ModesL2, 0 ≤ x.f2n n d mo) ∧
  (∀ d ∈ s.Dcs, ∀ r ∈ s.Retailers, ∀ mo ∈ s.ModesL3, 0 ≤ x.f3 d r mo) ∧
  (hasF2n s = true → ∀ n ∈ s.New_Locs, x.bin n = 0 ∨ x.bin n = 1) ∧
  (hasF3 s = true → ∀ r ∈ s.Retailers,
    TGE.lookupQ s.demand r ≤ retailerInbound s x r) ∧
  (hasF3 s = true → ∀ d ∈ s.Dcs, dcInbound s x d = dcOutbound s x d) ∧
  ((hasF1 s = true ∧ hasF2 s = true) → ∀ c ∈ s.Crossdocks,
    cdInbound s x c = cdOutbound s x c) ∧
  (hasF3 s = true → ∀ d ∈ s.Dcs, dcOutbound s x d ≤ s.dcCap d) ∧
  (hasF2n s = true → ∀ n ∈ s.New_Locs, nlOutbound s x n ≤ s.nlCap n * x.bin n) ∧
  (Total_CO2 s x ≤ s.CO2base * (1 - s.pct)) ∧
  (TGE.sumOver s.New_Locs x.bin = (s.New_Locs.length : ℚ)) ∧
  ((s.suez = true ∧ hasF1 s = true ∧ "sea" ∈ s.ModesL1) →
    ∀ p ∈ s.Plants, ∀ c ∈ s.Crossdocks, x.f1 p c "sea" = 0) ∧
  ((s.volcano = true ∧ hasF1 s = true ∧ "air" ∈ s.ModesL1) →
    ∀ p ∈ s.Plants, ∀ c ∈ s.Crossdocks, x.f1 p c "air" = 0) ∧
  ((s.volcano = true ∧ hasF2 s = true ∧ "air" ∈ s.ModesL2) →
    ∀ c ∈ s.Crossdocks, ∀ d ∈ s.Dcs, x.f2 c d "air" = 0) ∧
  ((s.volcano = true ∧ hasF2n s = true ∧ "air" ∈ s.ModesL2) →
    ∀ n ∈ s.New_Locs, ∀ d ∈ s.Dcs, x.f2n n d "air" = 0) ∧
  ((s.volcano = true ∧ hasF3 s = true ∧ "air" ∈ s.ModesL3) →
    ∀ d ∈ s.Dcs, ∀ r ∈ s.Retailers, x.f3 d r "air" = 0)

set_option synthInstance.maxHeartbeats 1000000 in
set_option synthInstance.maxSize 1024 in
instance FeasibleDec (s : Scen) (x : TGE.Assign) : Decidable (Feasible s x) := by
  unfold Feasible
  exact inferInstance

/-- v is the optimal objective value of the generated model: attained by a
feasible point and a lower bound of the objective on the feasible set. -/
def OptimalValue (s : Scen) (v : ℚ) : Prop :=
  (∃ x, Feasible s x ∧ Obj s x = v) ∧ ∀ y, Feasible s y → v ≤ Obj s y

-- Observable effects of run_scenario_master on the caller-supplied
-- mappings (the frame of the call).

/-- The data mapping after the call: line 235 unconditionally writes the
hardcoded SS list into the caller-supplied data dictionary. -/
def dataAfter (inp : In) : TGE.DataTable :=
  { inp.data with ss := some TGE.ssHardcoded }

/-- The sourcing-cost mapping after the call: lines 341-343 scale every
entry in place by tariff_rate when trade_war is set. -/
def sourcingAfter (inp : In) : String → ℚ :=
  if inp.tradeWar then fun p => inp.sourcingCost p * inp.tariffRate
  else inp.sourcingCost

/-- The demand mapping after the call: the source never writes it. -/
def demandAfter (inp : In) : List (String × ℚ) := inp.demand

/-- The DC-capacity mapping after the call: the source never writes it. -/
def dcCapacityAfter (inp : In) : String → ℚ := inp.dcCapacity

/-- The DC handling-cost mapping after the call: never written. -/
def handlingDcAfter (inp : In) : String → ℚ := inp.handlingDc

/-- The crossdock handling-cost mapping after the call: never written. -/
def handlingCrossdockAfter (inp : In) : String → ℚ := inp.handlingCrossdock

/-- The production-CO2 mapping after the call: only read (line 553). -/
def co2ProdAfter (inp : In) : String → ℚ := inp.co2ProdKgPerUnit

/-- The new-location capacity mapping after the call: only read (lines 350
and 678); the derived per-unit cost is a fresh dictionary. -/
def newLocCapacityAfter (inp : In) : List (String × ℚ) := inp.newLocCapacity

/-- The new-location opening-cost mapping after the call: only read. -/
def newLocOpeningCostAfter (inp : In) : String → ℚ := inp.newLocOpeningCost

/-- The new-location operation-cost mapping after the call: never written. -/
def newLocOperationCostAfter (inp : In) : String → ℚ := inp.newLocOperationCost

/-- The new-location CO2 mapping after the call: only read (line 562). -/
def newLocCO2After (inp : In) : String → ℚ := inp.newLocCO2

/-- The transport emission-factor mapping after the call: only read; the
oil-crisis scaling (line 338) rewrites the local tau dictionary, not this
mapping and not the data table. -/
def co2EmissionFactorAfter (inp : In) : String → ℚ := inp.co2EmissionFactor

/-- The plant-to-crossdock distance frame after the call: only read. -/
def dist1After (inp : In) : String → String → ℚ := inp.dist1

/-- The crossdock-to-DC distance frame after the call: only read. -/
def dist2After (inp : In) : String → String → ℚ := inp.dist2

/-- The new-location-to-DC distance frame after the call: only read. -/
def dist2newAfter (inp : In) : String → String → ℚ := inp.dist2new

/-- The DC-to-retailer distance frame after the call: only read. -/
def dist3After (inp : In) : String → String → ℚ := inp.dist3

end MASTER

-- ======================================================
-- optimize/Scenario_Setting_For_SC2F_uns.py run_scenario
-- ======================================================

namespace SC2F

/-- Keyword arguments of the slack variant that the generated model reads.
Cost-only parameters that never reach a constraint (handling, sourcing,
inventory and new-location cost coefficients, the data table) are omitted:
the claims about this variant concern its constraint system, its emissions
and its post-solve read-back.  The network sets are hardcoded in the source
(lines 129-135). -/
structure In where
  demand : List (String × ℚ) := TGE.demandDefault
  dcCapacity : String → ℚ := TGE.dcCapacityDefault
  co2ProdKgPerUnit : String → ℚ := TGE.co2ProdDefault
  newLocCapacity : String → ℚ := TGE.lookupQ TGE.newLocCapacityDefault
  newLocCO2 : String → ℚ := TGE.newLocCO2Default
  co2EmissionFactor : String → ℚ := TGE.co2EmissionFactorDefault
  data : TGE.DataTable := TGE.dataDefault
  productWeight : ℚ := 2.58
  lastmileCO2kg : ℚ := 2.68
  CO2base : ℚ := 1582.42366689614
  CO2percentage : ℚ := 0.5
  suezCanal : Bool := false
  oilCrises : Bool := false
  volcano : Bool := false
  tradeWar : Bool := false
  tariffRate : ℚ := 1

/-- The caller-supplied data mapping after the slack variant returns: lines
104-126 unconditionally write five derived columns into it.  The holding
column is the hardcoded constant 0.85 per mode; the lead-time column is
9600 km (1.2 factor for sea) over speed times 24 h, exactly one half, 48
and 10 days for air, sea, road (line 114); the Z-score and density columns
are the normal quantile and density at the service level (lines 119-123),
irrational and hence abstracted as the parameters zcol and phicol; the SS
column is the hardcoded list (line 126). -/
def dataAfter (inp : In) (zcol phicol : List ℚ) : TGE.DataTable :=
  { inp.data with
    hcol := some [0.85, 0.85, 0.85]
    lt := some [1/2, 48, 10]
    zcol := some zcol
    phicol := some phicol
    ss := some TGE.ssHardcoded }

/-- Modes on layers 2 and 3 (source variable Modes, line 129) as they stand
at model-build time.  The volcano branch (lines 542-547) removes air from
this list only after every variable, constraint and objective expression
has already been added to the model, so the generated model never depends
on the volcano flag; the mutation only affects the post-solve reporting. -/
def Modes : List String := ["air", "sea", "road"]

/-- Layer-1 modes (line 130), likewise unaffected at build time. -/
def ModesL1 : List String := ["air", "sea"]

def Retailers (inp : In) : List String := inp.demand.map Prod.fst

def pwTon (inp : In) : ℚ := inp.productWeight / 1000

/-- Aggregate CO2 of the slack variant (lines 219-255): production at
plants and new locations, transport on layers 1, 2 (both origins) and 3,
last mile. -/
def Total_CO2 (inp : In) (x : TGE.Assign) : ℚ :=
  (TGE.sumOver TGE.PlantsAll fun p =>
    inp.co2ProdKgPerUnit p *
      (TGE.sumOver TGE.CrossdocksAll fun c => TGE.sumOver ModesL1 fun mo => x.f1 p c mo)) / 1000 +
  (TGE.sumOver TGE.NewLocsAll fun n =>
    inp.newLocCO2 n *
      (TGE.sumOver TGE.DcsAll fun d => TGE.sumOver Modes fun mo => x.f2n n d mo)) / 1000 +
  (TGE.sumOver TGE.PlantsAll fun p => TGE.sumOver TGE.CrossdocksAll fun c =>
    TGE.sumOver ModesL1 fun mo =>
      inp.co2EmissionFactor mo * TGE.dist1Default p c * pwTon inp * x.f1 p c mo) +
  (TGE.sumOver TGE.CrossdocksAll fun c => TGE.sumOver TGE.DcsAll fun d =>
    TGE.sumOver Modes fun mo =>
      inp.co2EmissionFactor mo * TGE.dist2Default c d * pwTon inp * x.f2 c d mo) +
  (TGE.sumOver TGE.DcsAll fun d => TGE.sumOver (Retailers inp) fun r =>
    TGE.sumOver Modes fun mo =>
      inp.co2EmissionFactor mo * TGE.dist3Default d r * pwTon inp * x.f3 d r mo) +
  (inp.lastmileCO2kg / 1000) *
    (TGE.sumOver TGE.DcsAll fun d => TGE.sumOver (Retailers inp) fun r =>
      TGE.sumOver Modes fun mo => x.f3 d r mo) +
  (TGE.sumOver TGE.NewLocsAll fun n => TGE.sumOver TGE.DcsAll fun d =>
    TGE.sumOver Modes fun mo =>
      inp.co2EmissionFactor mo * TGE.dist2newDefault n d * pwTon inp * x.f2n n d mo)

/-- Inbound flow of a retailer over all DCs and modes (line 463). -/
def retailerInbound (inp : In) (x : TGE.Assign) (r : String) : ℚ :=
  TGE.sumOver TGE.DcsAll fun d => TGE.sumOver Modes fun mo => x.f3 d r mo

/-- Inbound flow of a DC from crossdocks and new locations (lines 473-474). -/
def dcInbound (x : TGE.Assign) (d : String) : ℚ :=
  (TGE.sumOver TGE.CrossdocksAll fun c => TGE.sumOver Modes fun mo => x.f2 c d mo) +
  (TGE.sumOver TGE.NewLocsAll fun n => TGE.sumOver Modes fun mo => x.f2n n d mo)

/-- Outbound flow of a DC towards retailers (line 475). -/
def dcOutbound (inp : In) (x : TGE.Assign) (d : String) : ℚ :=
  TGE.sumOver (Retailers inp) fun r => TGE.sumOver Modes fun mo => x.f3 d r mo

/-- Inbound flow of a crossdock from the plants (line 484). -/
def cdInbound (x : TGE.Assign) (c : String) : ℚ :=
  TGE.sumOver TGE.PlantsAll fun p => TGE.sumOver ModesL1 fun mo => x.f1 p c mo

/-- Outbound flow of a crossdock towards the DCs (line 485). -/
def cdOutbound (x : TGE.Assign) (c : String) : ℚ :=
  TGE.sumOver TGE.DcsAll fun d => TGE.sumOver Modes fun mo => x.f2 c d mo

/-- The feasible set of the slack variant (lines 195-212 variable bounds,
lines 460-512 constraints, lines 519-527 the suez zeroing).  Demand is an
equality with the nonnegative slack v; the open binaries are free (no
forced-binary constraint exists in this source).  The volcano flag adds no
constraint: the air-mode removal happens after the model is built. -/
def Feasible (inp : In) (x : TGE.Assign) : Prop :=
  (∀ p ∈ TGE.PlantsAll, ∀ c ∈ TGE.CrossdocksAll, ∀ mo ∈ ModesL1, 0 ≤ x.f1 p c mo) ∧
  (∀ c ∈ TGE.CrossdocksAll, ∀ d ∈ TGE.DcsAll, ∀ mo ∈ Modes, 0 ≤ x.f2 c d mo) ∧
  (∀ n ∈ TGE.NewLocsAll, ∀ d ∈ TGE.DcsAll, ∀ mo ∈ Modes, 0 ≤ x.f2n n d mo) ∧
  (∀ d ∈ TGE.DcsAll, ∀ r ∈ Retailers inp, ∀ mo ∈ Modes, 0 ≤ x.f3 d r mo) ∧
  (∀ r ∈ Retailers inp, 0 ≤ x.v r) ∧
  (∀ n ∈ TGE.NewLocsAll, x.bin n = 0 ∨ x.bin n = 1) ∧
  (∀ r ∈ Retailers inp,
    retailerInbound inp x r + x.v r = TGE.lookupQ inp.demand r) ∧
  (∀ d ∈ TGE.DcsAll, dcInbound x d = dcOutbound inp x d) ∧
  (∀ c ∈ TGE.CrossdocksAll, cdInbound x c = cdOutbound x c) ∧
  (∀ n ∈ TGE.NewLocsAll,
    (TGE.sumOver TGE.DcsAll fun d => TGE.sumOver Modes fun mo => x.f2n n d mo) ≤
    inp.newLocCapacity n * x.bin n) ∧
  (∀ d ∈ TGE.DcsAll,
    (TGE.sumOver (Retailers inp) fun r => TGE.sumOver Modes fun mo => x.f3 d r mo) ≤
    inp.dcCapacity d) ∧
  (Total_CO2 inp x ≤ inp.CO2base * (1 - inp.CO2percentage)) ∧
  (inp.suezCanal = true →
    ∀ p ∈ TGE.PlantsAll, ∀ c ∈ TGE.CrossdocksAll, x.f1 p c "sea" = 0)

set_option synthInstance.maxHeartbeats 1000000 in
set_option synthInstance.maxSize 1024 in
instance FeasibleDec (inp : In) (x : TGE.Assign) : Decidable (Feasible inp x) := by
  unfold Feasible
  exact inferInstance

end SC2F

-- ======================================================
-- SC1F.py run_scenario (fixed network, no events, no slack)
-- ======================================================

namespace SC1F

/-- Keyword arguments of the SC1F variant that reach the generated model.
The source has no event flags and no new-location variables; its default
CO2 baseline is 1733.38261611967 (line 28).  Cost-only parameters are
omitted as in the SC2F embedding. -/
structure In where
  demand : List (String × ℚ) := TGE.demandDefault
  dcCapacity : String → ℚ := TGE.dcCapacityDefault
  co2ProdKgPerUnit : String → ℚ := TGE.co2ProdDefault
  co2EmissionFactor : String → ℚ := TGE.co2EmissionFactorDefault
  productWeight : ℚ := 2.58
  lastmileCO2kg : ℚ := 2.68
  CO2base : ℚ := 1733.38261611967
  CO2percentage : ℚ := 0.5

def Modes : List String := ["air", "sea", "road"]

def ModesL1 : List String := ["air", "sea"]

def Retailers (inp : In) : List String := inp.demand.map Prod.fst

def pwTon (inp : In) : ℚ := inp.productWeight / 1000

/-- Aggregate CO2 of SC1F (lines 211-239): production at plants, transport
on the three layers, last mile; there are no new-location terms. -/
def Total_CO2 (inp : In) (x : TGE.Assign) : ℚ :=
  (TGE.sumOver TGE.PlantsAll fun p =>
    inp.co2ProdKgPerUnit p *
      (TGE.sumOver TGE.CrossdocksAll fun c => TGE.sumOver ModesL1 fun mo => x.f1 p c mo)) / 1000 +
  (TGE.sumOver TGE.PlantsAll fun p => TGE.sumOver TGE.CrossdocksAll fun c =>
    TGE.sumOver ModesL1 fun mo =>
      inp.co2EmissionFactor mo * TGE.dist1Default p c * pwTon inp * x.f1 p c mo) +
  (TGE.sumOver TGE.CrossdocksAll fun c => TGE.sumOver TGE.DcsAll fun d =>
    TGE.sumOver Modes fun mo =>
      inp.co2EmissionFactor mo * TGE.dist2Default c d * pwTon inp * x.f2 c d mo) +
  (TGE.sumOver TGE.DcsAll fun d => TGE.sumOver (Retailers inp) fun r =>
    TGE.sumOver Modes fun mo =>
      inp.co2EmissionFactor mo * TGE.dist3Default d r * pwTon inp * x.f3 d r mo) +
  (inp.lastmileCO2kg / 1000) *
    (TGE.sumOver TGE.DcsAll fun d => TGE.sumOver (Retailers inp) fun r =>
      TGE.sumOver Modes fun mo => x.f3 d r mo)

/-- Inbound flow of a retailer (line 358). -/
def retailerInbound (inp : In) (x : TGE.Assign) (r : String) : ℚ :=
  TGE.sumOver TGE.DcsAll fun d => TGE.sumOver Modes fun mo => x.f3 d r mo

/-- Inbound flow of a DC from the crossdocks (line 366). -/
def dcInbound (x : TGE.Assign) (d : String) : ℚ :=
  TGE.sumOver TGE.CrossdocksAll fun c => TGE.sumOver Modes fun mo => x.f2 c d mo

/-- Outbound flow of a DC towards retailers (line 367). -/
def dcOutbound (inp : In) (x : TGE.Assign) (d : String) : ℚ :=
  TGE.sumOver (Retailers inp) fun r => TGE.sumOver Modes fun mo => x.f3 d r mo

/-- Inbound flow of a crossdock from the plants (line 376). -/
def cdInbound (x : TGE.Assign) (c : String) : ℚ :=
  TGE.sumOver TGE.PlantsAll fun p => TGE.sumOver ModesL1 fun mo => x.f1 p c mo

/-- Outbound flow of a crossdock towards the DCs (line 377). -/
def cdOutbound (x : TGE.Assign) (c : String) : ℚ :=
  TGE.sumOver TGE.DcsAll fun d => TGE.sumOver Modes fun mo => x.f2 c d mo

/-- The feasible set of SC1F (lines 196-204 variable bounds, lines 357-395
constraints): demand as a lower bound, DC and crossdock balance, DC
capacity, the CO2 cap.  All constraint families are added unconditionally. -/
def Feasible (inp : In) (x : TGE.Assign) : Prop :=
  (∀ p ∈ TGE.PlantsAll, ∀ c ∈ TGE.CrossdocksAll, ∀ mo ∈ ModesL1, 0 ≤ x.f1 p c mo) ∧
  (∀ c ∈ TGE.CrossdocksAll, ∀ d ∈ TGE.DcsAll, ∀ mo ∈ Modes, 0 ≤ x.f2 c d mo) ∧
  (∀ d ∈ TGE.DcsAll, ∀ r ∈ Retailers inp, ∀ mo ∈ Modes, 0 ≤ x.f3 d r mo) ∧
  (∀ r ∈ Retailers inp, TGE.lookupQ inp.demand r ≤ retailerInbound inp x r) ∧
  (∀ d ∈ TGE.DcsAll, dcInbound x d = dcOutbound inp x d) ∧
  (∀ c ∈ TGE.CrossdocksAll, cdInbound x c = cdOutbound x c) ∧
  (∀ d ∈ TGE.DcsAll,
    (TGE.sumOver (Retailers inp) fun r => TGE.sumOver Modes fun mo => x.f3 d r mo) ≤
    inp.dcCapacity d) ∧
  (Total_CO2 inp x ≤ inp.CO2base * (1 - inp.CO2percentage))

set_option synthInstance.maxHeartbeats 1000000 in
instance FeasibleDec (inp : In) (x : TGE.Assign) : Decidable (Feasible inp x) := by
  unfold Feasible
  exact inferInstance

end SC1F

-- ======================================================
-- optimize/Scenario_Setting_For_SC1F.py run_scenario
-- ======================================================

namespace SCEN1F

/-- Keyword arguments of the SC1F scenario-setting variant that reach the
generated model.  It shares the SC1F constraint system, defaults the CO2
baseline to 1582.42366689614 (line 40), and adds event flags; of those only
the suez blockade adds constraints (lines 461-469).  The volcano branch
(lines 484-489) removes air from the mode lists only after the model and
its objective are built, so it does not change the model. -/
structure In where
  demand : List (String × ℚ) := TGE.demandDefault
  dcCapacity : String → ℚ := TGE.dcCapacityDefault
  co2ProdKgPerUnit : String → ℚ := TGE.co2ProdDefault
  co2EmissionFactor : String → ℚ := TGE.co2EmissionFactorDefault
  productWeight : ℚ := 2.58
  lastmileCO2kg : ℚ := 2.68
  CO2base : ℚ := 1582.42366689614
  CO2percentage : ℚ := 0.5
  suezCanal : Bool := false
  oilCrises : Bool := false
  volcano : Bool := false
  tradeWar : Bool := false
  tariffRate : ℚ := 1

def toSC1F (inp : In) : SC1F.In :=
  { demand := inp.demand, dcCapacity := inp.dcCapacity,
    co2ProdKgPerUnit := inp.co2ProdKgPerUnit,
    co2EmissionFactor := inp.co2EmissionFactor,
    productWeight := inp.productWeight, lastmileCO2kg := inp.lastmileCO2kg,
    CO2base := inp.CO2base, CO2percentage := inp.CO2percentage }

/-- Aggregate CO2 (lines 228-254), identical in shape to SC1F. -/
def Total_CO2 (inp : In) (x : TGE.Assign) : ℚ := SC1F.Total_CO2 (toSC1F inp) x

/-- The feasible set: the SC1F constraint system (lines 415-453) plus the
suez sea-zeroing on layer 1 when the flag is set (lines 461-469). -/
def Feasible (inp : In) (x : TGE.Assign) : Prop :=
  SC1F.Feasible (toSC1F inp) x ∧
  (inp.suezCanal = true →
    ∀ p ∈ TGE.PlantsAll, ∀ c ∈ TGE.CrossdocksAll, x.f1 p c "sea" = 0)

set_option synthInstance.maxHeartbeats 1000000 in
instance FeasibleDec (inp : In) (x : TGE.Assign) : Decidable (Feasible inp x) := by
  unfold Feasible
  exact inferInstance

end SCEN1F

-- ======================================================
-- Post-solve read-back semantics
-- ======================================================

/-- Solver status after a plain optimize call with no limits configured:
the statuses this code path can see.  A solution is loaded only in the
optimal case, so reading an attribute such as ObjVal, X or getValue on a
linear expression succeeds only then and otherwise raises. -/
inductive GStatus where
  | optimal
  | infeasible
  | infOrUnbd
  | unbounded
deriving DecidableEq

/-- Reading a solution-dependent value: the gurobi attribute access, which
raises unless a solution is available. -/
def readVal (st : GStatus) (v : ℚ) : Except String ℚ :=
  if st = .optimal then .ok v
  else .error "GurobiError: Unable to retrieve attribute"

/-- The helper _safe_val of MASTER.py (lines 776-783): any failed read is
silently coerced to 0.0. -/
def safeVal (st : GStatus) (v : ℚ) : ℚ :=
  match readVal st v with
  | .ok w => w
  | .error _ => 0

namespace MASTER

/-- The solved values of the expressions the extraction reads; one field per
representative results entry (the remaining cost entries of the source
follow the same _safe_val pattern as these). -/
structure Vals where
  transportL1 : ℚ := 0
  transportL2 : ℚ := 0
  transportL3 : ℚ := 0
  lastMile : ℚ := 0
  co2Total : ℚ := 0
  objVal : ℚ := 0

structure Results where
  transportL1 : ℚ
  transportL2 : ℚ
  transportL3 : ℚ
  lastMile : ℚ
  co2Total : ℚ
  objectiveValue : ℚ
  status : GStatus

/-- Result extraction of run_scenario_master (lines 765-894): every cost and
emission component is read through _safe_val and therefore never fails
(silently becoming 0.0 when no solution exists), but the results dictionary
reads model.ObjVal directly (line 892, and line 849 when printing), which
raises on a non-optimal status; the function then propagates the exception
instead of returning.  model.Status itself is read without error. -/
def extract (st : GStatus) (vals : Vals) : Except String Results :=
  let tL1 := safeVal st vals.transportL1
  let tL2 := safeVal st vals.transportL2
  let tL3 := safeVal st vals.transportL3
  let lm := safeVal st vals.lastMile
  let co2 := safeVal st vals.co2Total
  match readVal st vals.objVal with
  | .error e => .error e
  | .ok o => .ok
      { transportL1 := tL1, transportL2 := tL2, transportL3 := tL3,
        lastMile := lm, co2Total := co2, objectiveValue := o, status := st }

end MASTER

namespace SC2F

/-- Solved expression values read by the slack-variant extraction. -/
structure Vals where
  eAir : ℚ := 0
  eSea : ℚ := 0
  eRoad : ℚ := 0
  eLastmile : ℚ := 0
  eProduction : ℚ := 0
  unmet : ℚ := 0        -- the summed slack values v[r].X (line 619)
  totalDemand : ℚ := 1
  objVal : ℚ := 0

structure Results where
  eAir : ℚ
  eSea : ℚ
  eRoad : ℚ
  eLastmile : ℚ
  eProduction : ℚ
  objectiveValue : ℚ
  satisfiedPct : ℚ
  satisfiedUnits : ℚ

/-- Result extraction of the slack variant (lines 578-666): every value,
beginning with the per-mode emission expressions at line 612, is read with
getValue or X directly, with no status check anywhere in the function; the
first such read raises on a non-optimal status.  The reported objective
subtracts the slack penalty M times the unmet demand (line 663). -/
def extract (st : GStatus) (vals : Vals) : Except String Results := do
  let eAir ← readVal st vals.eAir
  let eSea ← readVal st vals.eSea
  let eRoad ← readVal st vals.eRoad
  let eLm ← readVal st vals.eLastmile
  let ePr ← readVal st vals.eProduction
  let u ← readVal st vals.unmet
  let o ← readVal st vals.objVal
  pure { eAir := eAir, eSea := eSea, eRoad := eRoad, eLastmile := eLm,
         eProduction := ePr,
         objectiveValue := o - 100000000 * u,
         satisfiedPct := (vals.totalDemand - u) / vals.totalDemand,
         satisfiedUnits := vals.totalDemand - u }

end SC2F

namespace SC1F

structure Vals where
  transportL1 : ℚ := 0
  inventoryL1 : ℚ := 0
  co2Total : ℚ := 0
  objVal : ℚ := 0

structure Results where
  transportL1 : ℚ
  inventoryL1 : ℚ
  co2Total : ℚ
  objectiveValue : ℚ

/-- Result extraction of SC1F (lines 414-467): all values are read with
getValue directly and model.ObjVal last, with no status check inside
run_scenario; the first read raises on a non-optimal status.  The sweep
driver simulate_scenarios_full checks model.Status only after run_scenario
has returned (line 527). -/
def extract (st : GStatus) (vals : Vals) : Except String Results := do
  let t1 ← readVal st vals.transportL1
  let i1 ← readVal st vals.inventoryL1
  let co2 ← readVal st vals.co2Total
  let o ← readVal st vals.objVal
  pure { transportL1 := t1, inventoryL1 := i1, co2Total := co2, objectiveValue := o }

end SC1F

namespace SCEN1F

/-- Result extraction of the SC1F scenario-setting variant (lines 513-582):
identical read-back discipline to SC1F, beginning with the per-mode
emission expressions at line 541. -/
def extract (st : GStatus) (vals : SC1F.Vals) : Except String SC1F.Results :=
  SC1F.extract st vals

end SCEN1F

/-- The post-return status check of the sweep drivers (SC1F.py line 527,
Scenario_Setting_For_SC1F.py line 639): a record is kept only when the
returned model reports GRB.OPTIMAL. -/
def sweepKeeps (st : GStatus) : Bool := st == .optimal

-- ======================================================
-- General helper lemmas
-- ======================================================

theorem sum2_nonneg {α β : Type} (L1 : List α) (L2 : List β) (f : α → β → ℚ)
    (h : ∀ a ∈ L1, ∀ b ∈ L2, 0 ≤ f a b) :
    0 ≤ sumOver L1 (fun a => sumOver L2 (fun b => f a b)) :=
  sumOver_nonneg _ _ (fun a ha => sumOver_nonneg _ _ (fun b hb => h a ha b hb))

theorem sum3_nonneg {α β γ : Type} (L1 : List α) (L2 : List β) (L3 : List γ)
    (f : α → β → γ → ℚ) (h : ∀ a ∈ L1, ∀ b ∈ L2, ∀ c ∈ L3, 0 ≤ f a b c) :
    0 ≤ sumOver L1 (fun a => sumOver L2 (fun b => sumOver L3 (fun c => f a b c))) :=
  sumOver_nonneg _ _ (fun a ha => sum2_nonneg _ _ _ (fun b hb c hc => h a ha b hb c hc))

theorem sumOver_congr {α : Type} (l : List α) (f g : α → ℚ)
    (h : ∀ a ∈ l, f a = g a) : sumOver l f = sumOver l g := by
  induction l with
  | nil => rfl
  | cons a t ih =>
      rw [sumOver_cons, sumOver_cons, h a (List.mem_cons_self a t),
        ih (fun b hb => h b (List.mem_cons_of_mem a hb))]

theorem isEmpty_false_of_ne_nil {α : Type} {l : List α} (h : l ≠ []) :
    l.isEmpty = false := by
  cases l with
  | nil => exact absurd rfl h
  | cons a t => rfl

/-- In a MASTER model in which the open binaries exist, the forced-binary
constraint of line 688 together with the binary domains pins every open
binary of an active new location to 1. -/
theorem master_bins_forced_one (s : MASTER.Scen) (x : Assign)
    (hf : MASTER.Feasible s x) (h2n : MASTER.hasF2n s = true) :
    ∀ n ∈ s.New_Locs, x.bin n = 1 := by
  obtain ⟨-, -, -, -, hbin, -, -, -, -, -, -, hsum, -⟩ := hf
  have hb := hbin h2n
  exact sumOver_eq_length_forces_one s.New_Locs x.bin
    (fun n hn => by rcases hb n hn with h | h <;> rw [h] <;> norm_num)
    (fun n hn => by rcases hb n hn with h | h <;> rw [h] <;> norm_num)
    hsum

-- ======================================================
-- Concrete instances used by witnesses and counterexamples
-- ======================================================

/-- Zero stand-in for the abstracted safety-stock default; the instances
below never read it (their objective is either unused or resolved from a
caller-supplied SS column). -/
def ssZ : String → ℚ := fun _ => 0

/-- A one-retailer demand of 5 units at FLUXC. -/
def wDemand : List (String × ℚ) := [("FLUXC", 5)]

/-- MASTER invocation: default data, single small demand, no new locations. -/
def inpMW : MASTER.In := { demand := wDemand, activeNewLocs := some [] }

/-- MASTER invocation: default data and new locations, single small demand. -/
def inpMW2 : MASTER.In := { demand := wDemand }

/-- A feasible routing of 5 units: sea from TW to ATVIE, road onwards to PED
and to FLUXC. -/
def xMW : Assign :=
  { f1 := fun p c mo => if p = "TW" ∧ c = "ATVIE" ∧ mo = "sea" then 5 else 0
    f2 := fun c d mo => if c = "ATVIE" ∧ d = "PED" ∧ mo = "road" then 5 else 0
    f2n := fun _ _ _ => 0
    bin := fun _ => 0
    f3 := fun d r mo => if d = "PED" ∧ r = "FLUXC" ∧ mo = "road" then 5 else 0
    v := fun _ => 0 }

/-- The same routing with every open binary set to 1 (as the forced-binary
constraint requires when new locations are active). -/
def xMW2 : Assign := { xMW with bin := fun _ => 1 }

/-- The same routing inflated to 6 units: feasible for the 5-unit demand
because the Demand constraint is an inequality. -/
def xMW6 : Assign :=
  { f1 := fun p c mo => if p = "TW" ∧ c = "ATVIE" ∧ mo = "sea" then 6 else 0
    f2 := fun c d mo => if c = "ATVIE" ∧ d = "PED" ∧ mo = "road" then 6 else 0
    f2n := fun _ _ _ => 0
    bin := fun _ => 0
    f3 := fun d r mo => if d = "PED" ∧ r = "FLUXC" ∧ mo = "road" then 6 else 0
    v := fun _ => 0 }

set_option maxHeartbeats 3200000 in
theorem feasMW : MASTER.Feasible (MASTER.scenOf inpMW ssZ) xMW := by
  simp [MASTER.Feasible, MASTER.scenOf, MASTER.plantsOf, MASTER.crossdocksOf,
      MASTER.newLocsOf, MASTER.dcsOf, MASTER.retailersOf, MASTER.modesL1Of,
      MASTER.modesL2Of, MASTER.modesL3Of, MASTER.hasF1, MASTER.hasF2, MASTER.hasF2n,
      MASTER.hasF3, MASTER.retailerInbound, MASTER.dcInbound, MASTER.dcOutbound,
      MASTER.cdInbound, MASTER.cdOutbound, MASTER.nlOutbound, MASTER.Total_CO2,
      MASTER.CO2_prod_L1, MASTER.CO2_prod_new, MASTER.CO2_tr_L1, MASTER.CO2_tr_L2,
      MASTER.CO2_tr_L2_new, MASTER.CO2_tr_L3, MASTER.LastMile_CO2, inpMW, inpMW2,
      wDemand, xMW, xMW2, xMW6, ssZ, sumOver, lookupQ, colLookup,
      List.forall_mem_cons, PlantsAll, CrossdocksAll, NewLocsAll, DcsAll,
      demandDefault, dcCapacityDefault, co2ProdDefault, newLocCapacityDefault,
      newLocCO2Default, co2EmissionFactorDefault, dataDefault, dist1Default,
      dist2Default, dist2newDefault, dist3Default] <;>
    norm_num

set_option maxHeartbeats 3200000 in
theorem feasMW2 : MASTER.Feasible (MASTER.scenOf inpMW2 ssZ) xMW2 := by
  simp [MASTER.Feasible, MASTER.scenOf, MASTER.plantsOf, MASTER.crossdocksOf,
      MASTER.newLocsOf, MASTER.dcsOf, MASTER.retailersOf, MASTER.modesL1Of,
      MASTER.modesL2Of, MASTER.modesL3Of, MASTER.hasF1, MASTER.hasF2, MASTER.hasF2n,
      MASTER.hasF3, MASTER.retailerInbound, MASTER.dcInbound, MASTER.dcOutbound,
      MASTER.cdInbound, MASTER.cdOutbound, MASTER.nlOutbound, MASTER.Total_CO2,
      MASTER.CO2_prod_L1, MASTER.CO2_prod_new, MASTER.CO2_tr_L1, MASTER.CO2_tr_L2,
      MASTER.CO2_tr_L2_new, MASTER.CO2_tr_L3, MASTER.LastMile_CO2, inpMW, inpMW2,
      wDemand, xMW, xMW2, xMW6, ssZ, sumOver, lookupQ, colLookup,
      List.forall_mem_cons, PlantsAll, CrossdocksAll, NewLocsAll, DcsAll,
      demandDefault, dcCapacityDefault, co2ProdDefault, newLocCapacityDefault,
      newLocCO2Default, co2EmissionFactorDefault, dataDefault, dist1Default,
      dist2Default, dist2newDefault, dist3Default] <;>
    norm_num

set_option maxHeartbeats 3200000 in
theorem feasMW6 : MASTER.Feasible (MASTER.scenOf inpMW ssZ) xMW6 := by
  simp [MASTER.Feasible, MASTER.scenOf, MASTER.plantsOf, MASTER.crossdocksOf,
      MASTER.newLocsOf, MASTER.dcsOf, MASTER.retailersOf, MASTER.modesL1Of,
      MASTER.modesL2Of, MASTER.modesL3Of, MASTER.hasF1, MASTER.hasF2, MASTER.hasF2n,
      MASTER.hasF3, MASTER.retailerInbound, MASTER.dcInbound, MASTER.dcOutbound,
      MASTER.cdInbound, MASTER.cdOutbound, MASTER.nlOutbound, MASTER.Total_CO2,
      MASTER.CO2_prod_L1, MASTER.CO2_prod_new, MASTER.CO2_tr_L1, MASTER.CO2_tr_L2,
      MASTER.CO2_tr_L2_new, MASTER.CO2_tr_L3, MASTER.LastMile_CO2, inpMW, inpMW2,
      wDemand, xMW, xMW2, xMW6, ssZ, sumOver, lookupQ, colLookup,
      List.forall_mem_cons, PlantsAll, CrossdocksAll, NewLocsAll, DcsAll,
      demandDefault, dcCapacityDefault, co2ProdDefault, newLocCapacityDefault,
      newLocCO2Default, co2EmissionFactorDefault, dataDefault, dist1Default,
      dist2Default, dist2newDefault, dist3Default] <;>
    norm_num

/-- MASTER invocation with no active plants and no new locations: demand can
then only be met by crossdock outflow that no constraint ties to any inflow. -/
def inpC3 : MASTER.In :=
  { demand := wDemand, activePlants := some [], activeNewLocs := some [] }

/-- A routing meeting the 5-unit demand out of thin air at crossdock ATVIE. -/
def xC3 : Assign :=
  { f1 := fun _ _ _ => 0
    f2 := fun c d mo => if c = "ATVIE" ∧ d = "PED" ∧ mo = "road" then 5 else 0
    f2n := fun _ _ _ => 0
    bin := fun _ => 0
    f3 := fun d r mo => if d = "PED" ∧ r = "FLUXC" ∧ mo = "road" then 5 else 0
    v := fun _ => 0 }

theorem feasC3 : MASTER.Feasible (MASTER.scenOf inpC3 ssZ) xC3 := by
  simp [MASTER.Feasible, MASTER.scenOf, MASTER.plantsOf, MASTER.crossdocksOf,
      MASTER.newLocsOf, MASTER.dcsOf, MASTER.retailersOf, MASTER.modesL1Of,
      MASTER.modesL2Of, MASTER.modesL3Of, MASTER.hasF1, MASTER.hasF2, MASTER.hasF2n,
      MASTER.hasF3, MASTER.retailerInbound, MASTER.dcInbound, MASTER.dcOutbound,
      MASTER.cdInbound, MASTER.cdOutbound, MASTER.nlOutbound, MASTER.Total_CO2,
      MASTER.CO2_prod_L1, MASTER.CO2_prod_new, MASTER.CO2_tr_L1, MASTER.CO2_tr_L2,
      MASTER.CO2_tr_L2_new, MASTER.CO2_tr_L3, MASTER.LastMile_CO2, inpC3,
      wDemand, xC3, ssZ, sumOver, lookupQ, colLookup,
      List.forall_mem_cons, PlantsAll, CrossdocksAll, NewLocsAll, DcsAll,
      demandDefault, dcCapacityDefault, co2ProdDefault, newLocCapacityDefault,
      newLocCO2Default, co2EmissionFactorDefault, dataDefault, dist1Default,
      dist2Default, dist2newDefault, dist3Default] <;>
    norm_num

/-- Slack-variant invocation with all defaults. -/
def inpS2 : SC2F.In := {}

/-- Slack-variant invocation with the volcano event set. -/
def inpS2V : SC2F.In := { volcano := true }

/-- The all-slack point: no flow anywhere, every binary closed, each
retailer fully unmet. -/
def xSlack : Assign :=
  { zeroAssign with v := fun r => lookupQ demandDefault r }

/-- A point of the volcano run that ships 6 units by air on every layer and
slacks the rest of the demand. -/
def xAir : Assign :=
  { f1 := fun p c mo => if p = "TW" ∧ c = "ATVIE" ∧ mo = "air" then 6 else 0
    f2 := fun c d mo => if c = "ATVIE" ∧ d = "PED" ∧ mo = "air" then 6 else 0
    f2n := fun _ _ _ => 0
    bin := fun _ => 0
    f3 := fun d r mo => if d = "PED" ∧ r = "FLUXC" ∧ mo = "air" then 6 else 0
    v := fun r => if r = "FLUXC" then 16994 else lookupQ demandDefault r }

theorem feasS2 : SC2F.Feasible inpS2 xSlack := by
  simp [SC2F.Feasible, SC2F.Total_CO2, SC2F.retailerInbound, SC2F.dcInbound,
      SC2F.dcOutbound, SC2F.cdInbound, SC2F.cdOutbound, SC2F.Modes,
      SC2F.ModesL1, SC2F.Retailers, SC2F.pwTon, inpS2, inpS2V, xSlack, xAir,
      zeroAssign, sumOver, lookupQ, colLookup, List.forall_mem_cons, PlantsAll,
      CrossdocksAll, NewLocsAll, DcsAll, demandDefault, dcCapacityDefault,
      co2ProdDefault, newLocCapacityDefault, newLocCO2Default,
      co2EmissionFactorDefault, dist1Default, dist2Default, dist2newDefault,
      dist3Default] <;>
    norm_num

theorem feasS2V : SC2F.Feasible inpS2V xAir := by
  simp [SC2F.Feasible, SC2F.Total_CO2, SC2F.retailerInbound, SC2F.dcInbound,
      SC2F.dcOutbound, SC2F.cdInbound, SC2F.cdOutbound, SC2F.Modes,
      SC2F.ModesL1, SC2F.Retailers, SC2F.pwTon, inpS2, inpS2V, xSlack, xAir,
      zeroAssign, sumOver, lookupQ, colLookup, List.forall_mem_cons, PlantsAll,
      CrossdocksAll, NewLocsAll, DcsAll, demandDefault, dcCapacityDefault,
      co2ProdDefault, newLocCapacityDefault, newLocCO2Default,
      co2EmissionFactorDefault, dist1Default, dist2Default, dist2newDefault,
      dist3Default] <;>
    norm_num

/-- SC1F invocation with the small single-retailer demand. -/
def inpS1 : SC1F.In := { demand := wDemand }

theorem feasS1 : SC1F.Feasible inpS1 xMW := by
  simp [SC1F.Feasible, SC1F.Total_CO2, SC1F.retailerInbound, SC1F.dcInbound,
      SC1F.dcOutbound, SC1F.cdInbound, SC1F.cdOutbound, SC1F.Modes,
      SC1F.ModesL1, SC1F.Retailers, SC1F.pwTon, inpS1, xMW, wDemand,
      sumOver, lookupQ, colLookup, List.forall_mem_cons, PlantsAll,
      CrossdocksAll, DcsAll, demandDefault, dcCapacityDefault, co2ProdDefault,
      co2EmissionFactorDefault, dist1Default, dist2Default, dist3Default] <;>
    norm_num

/-- Scenario-setting SC1F invocation with the small demand, no events. -/
def inpSc1 : SCEN1F.In := { demand := wDemand }

/-- Scenario-setting SC1F invocation with the small demand and volcano set. -/
def inpSc1V : SCEN1F.In := { demand := wDemand, volcano := true }

/-- A routing of the 5 units that uses air on layer 1. -/
def xMWair : Assign :=
  { f1 := fun p c mo => if p = "TW" ∧ c = "ATVIE" ∧ mo = "air" then 5 else 0
    f2 := fun c d mo => if c = "ATVIE" ∧ d = "PED" ∧ mo = "road" then 5 else 0
    f2n := fun _ _ _ => 0
    bin := fun _ => 0
    f3 := fun d r mo => if d = "PED" ∧ r = "FLUXC" ∧ mo = "road" then 5 else 0
    v := fun _ => 0 }

theorem feasSc1 : SCEN1F.Feasible inpSc1 xMW := by
  simp [SCEN1F.Feasible, SCEN1F.toSC1F, SC1F.Feasible, SC1F.Total_CO2,
      SC1F.retailerInbound, SC1F.dcInbound, SC1F.dcOutbound, SC1F.cdInbound,
      SC1F.cdOutbound, SC1F.Modes, SC1F.ModesL1, SC1F.Retailers, SC1F.pwTon,
      inpSc1, inpSc1V, xMW, xMWair, wDemand, sumOver, lookupQ, colLookup,
      List.forall_mem_cons, PlantsAll, CrossdocksAll, DcsAll, demandDefault,
      dcCapacityDefault, co2ProdDefault, co2EmissionFactorDefault, dist1Default,
      dist2Default, dist3Default] <;>
    norm_num

theorem feasSc1V : SCEN1F.Feasible inpSc1V xMWair := by
  simp [SCEN1F.Feasible, SCEN1F.toSC1F, SC1F.Feasible, SC1F.Total_CO2,
      SC1F.retailerInbound, SC1F.dcInbound, SC1F.dcOutbound, SC1F.cdInbound,
      SC1F.cdOutbound, SC1F.Modes, SC1F.ModesL1, SC1F.Retailers, SC1F.pwTon,
      inpSc1, inpSc1V, xMW, xMWair, wDemand, sumOver, lookupQ, colLookup,
      List.forall_mem_cons, PlantsAll, CrossdocksAll, DcsAll, demandDefault,
      dcCapacityDefault, co2ProdDefault, co2EmissionFactorDefault, dist1Default,
      dist2Default, dist3Default] <;>
    norm_num

/-- MASTER invocation whose only change is emptying the active sets, used
for the monotonicity witness: the model then has no flow variables and a
constant objective of 0. -/
def inpC7 : MASTER.In :=
  { activePlants := some [], activeCrossdocks := some [], activeDcs := some [],
    activeNewLocs := some [] }

/-- MASTER invocation exercising the trade-war mutation of sourcing cost. -/
def inpC9 : MASTER.In := { tradeWar := true, tariffRate := 2 }

/-- MASTER invocation with an empty layer-3 mode list, positive default
demand, and a caller-supplied data table carrying SS and LT columns, so
every objective coefficient is a concrete rational. -/
def inpC10 : MASTER.In :=
  { activeModesL3 := some [],
    data := { modes := ["air", "sea", "road"], t := [0.0105, 0.0013, 0.0054],
              hcol := none, lt := some [1/2, 48, 10], ss := some ssHardcoded } }

/-- Zero flow with every open binary set to 1, as the forced-binary
constraint requires. -/
def xOpen : Assign := { zeroAssign with bin := fun _ => 1 }

/-- The fully default MASTER invocation. -/
def inpMD : MASTER.In := {}

/-- Whether an Except value carries a result (the call returned) rather
than a raised exception. -/
def exOk {α : Type} : Except String α → Bool
  | .ok _ => true
  | .error _ => false

theorem feasC10 : MASTER.Feasible (MASTER.scenOf inpC10 ssZ) xOpen := by
  simp [MASTER.Feasible, MASTER.scenOf, MASTER.plantsOf, MASTER.crossdocksOf,
      MASTER.newLocsOf, MASTER.dcsOf, MASTER.retailersOf, MASTER.modesL1Of,
      MASTER.modesL2Of, MASTER.modesL3Of, MASTER.hasF1, MASTER.hasF2, MASTER.hasF2n,
      MASTER.hasF3, MASTER.retailerInbound, MASTER.dcInbound, MASTER.dcOutbound,
      MASTER.cdInbound, MASTER.cdOutbound, MASTER.nlOutbound, MASTER.Total_CO2,
      MASTER.CO2_prod_L1, MASTER.CO2_prod_new, MASTER.CO2_tr_L1, MASTER.CO2_tr_L2,
      MASTER.CO2_tr_L2_new, MASTER.CO2_tr_L3, MASTER.LastMile_CO2, inpC10,
      xOpen, zeroAssign, ssZ, sumOver, lookupQ, colLookup,
      List.forall_mem_cons, PlantsAll, CrossdocksAll, NewLocsAll, DcsAll,
      demandDefault, dcCapacityDefault, co2ProdDefault, newLocCapacityDefault,
      newLocCO2Default, co2EmissionFactorDefault, dist1Default,
      dist2Default, dist2newDefault, dist3Default] <;>
    norm_num

-- ======================================================
-- Claim C1
-- ======================================================

/-- C1 counterexample: the claim says the no-slack variants constrain each
retailer inbound flow to EQUAL its demand; but the Demand constraint of
run_scenario_master (MASTER.py line 628) is an inequality, so the model of
a 5-unit demand admits a feasible point delivering 6 units. -/
theorem C1_counterexample :
    ∃ x, MASTER.Feasible (MASTER.scenOf inpMW ssZ) x ∧
      MASTER.retailerInbound (MASTER.scenOf inpMW ssZ) x "FLUXC" ≠
        lookupQ inpMW.demand "FLUXC" := by
  refine ⟨xMW6, feasMW6, ?_⟩
  simp [MASTER.retailerInbound, MASTER.scenOf, MASTER.dcsOf, MASTER.modesL3Of,
    inpMW, wDemand, xMW6, sumOver, lookupQ, DcsAll]

/-- C1 amended: in every feasible solution of each no-slack variant
(run_scenario_master, SC1F, Scenario_Setting_For_SC1F), each retailer
inbound flow is AT LEAST its demand (the generated constraint is an
inequality, with equality only enforced downward by cost minimisation); in
the slack variant SC2F_uns, inbound flow plus the nonnegative slack equals
demand exactly. -/
theorem C1_demand_regimes :
    (∀ (inp : MASTER.In) (ssN : String → ℚ) (x : Assign),
      MASTER.Feasible (MASTER.scenOf inp ssN) x →
      MASTER.hasF3 (MASTER.scenOf inp ssN) = true →
      ∀ r ∈ (MASTER.scenOf inp ssN).Retailers,
        lookupQ inp.demand r ≤ MASTER.retailerInbound (MASTER.scenOf inp ssN) x r) ∧
    (∀ (inp : SC1F.In) (x : Assign), SC1F.Feasible inp x →
      ∀ r ∈ SC1F.Retailers inp,
        lookupQ inp.demand r ≤ SC1F.retailerInbound inp x r) ∧
    (∀ (inp : SCEN1F.In) (x : Assign), SCEN1F.Feasible inp x →
      ∀ r ∈ SC1F.Retailers (SCEN1F.toSC1F inp),
        lookupQ inp.demand r ≤ SC1F.retailerInbound (SCEN1F.toSC1F inp) x r) ∧
    (∀ (inp : SC2F.In) (x : Assign), SC2F.Feasible inp x →
      ∀ r ∈ SC2F.Retailers inp,
        SC2F.retailerInbound inp x r + x.v r = lookupQ inp.demand r ∧ 0 ≤ x.v r) := by
  refine ⟨?_, ?_, ?_, ?_⟩
  · intro inp ssN x hf h3
    obtain ⟨-, -, -, -, -, hd, -⟩ := hf
    exact hd h3
  · intro inp x hf
    obtain ⟨-, -, -, hd, -⟩ := hf
    exact hd
  · intro inp x hf
    obtain ⟨⟨-, -, -, hd, -⟩, -⟩ := hf
    exact hd
  · intro inp x hf
    obtain ⟨-, -, -, -, hv, -, hd, -⟩ := hf
    exact fun r hr => ⟨hd r hr, hv r hr⟩

/-- C1 witness: the amended statement evaluated on concrete feasible points
of all four variants. -/
theorem C1_demand_regimes_witness :
    (lookupQ inpMW.demand "FLUXC" ≤
      MASTER.retailerInbound (MASTER.scenOf inpMW ssZ) xMW "FLUXC") ∧
    (lookupQ inpS1.demand "FLUXC" ≤ SC1F.retailerInbound inpS1 xMW "FLUXC") ∧
    (lookupQ inpSc1.demand "FLUXC" ≤
      SC1F.retailerInbound (SCEN1F.toSC1F inpSc1) xMW "FLUXC") ∧
    (SC2F.retailerInbound inpS2 xSlack "FLUXC" + xSlack.v "FLUXC" =
      lookupQ inpS2.demand "FLUXC" ∧ 0 ≤ xSlack.v "FLUXC") := by
  refine ⟨?_, ?_, ?_, ?_⟩
  · exact C1_demand_regimes.1 inpMW ssZ xMW feasMW rfl "FLUXC" (by simp [MASTER.scenOf,
      MASTER.retailersOf, inpMW, wDemand])
  · exact C1_demand_regimes.2.1 inpS1 xMW feasS1 "FLUXC" (by simp [SC1F.Retailers,
      inpS1, wDemand])
  · exact C1_demand_regimes.2.2.1 inpSc1 xMW feasSc1 "FLUXC" (by simp [SC1F.Retailers,
      SCEN1F.toSC1F, inpSc1, wDemand])
  · exact C1_demand_regimes.2.2.2 inpS2 xSlack feasS2 "FLUXC" (by simp [SC2F.Retailers,
      inpS2, demandDefault])

-- ======================================================
-- Claim C2
-- ======================================================

/-- C2 counterexample: with every input at its default, the claim says the
facility-open binary of an active new location is a free decision with
feasible solutions at 0; but the constraint at MASTER.py line 688 sums the
binaries to the number of active new locations, so no feasible solution
closes HUDTG. -/
theorem C2_counterexample :
    ¬ ∃ x, MASTER.Feasible (MASTER.scenOf inpMD ssZ) x ∧ x.bin "HUDTG" = 0 := by
  rintro ⟨x, hf, h0⟩
  have h1 := master_bins_forced_one (MASTER.scenOf inpMD ssZ) x hf rfl "HUDTG"
    (by simp [MASTER.scenOf, MASTER.newLocsOf, inpMD, NewLocsAll])
  rw [h0] at h1
  norm_num at h1

set_option maxHeartbeats 3200000 in
/-- A completed build (no Python-level error) rules out the line-688
KeyError condition: it cannot be that the active new-location list is
nonempty while the DC list or the layer-2 mode list is empty. -/
theorem buildErr_none_no_binKeyError (inp : MASTER.In)
    (h : MASTER.buildErr inp = none) :
    ((!(MASTER.newLocsOf inp).isEmpty) &&
      ((MASTER.dcsOf inp).isEmpty || (MASTER.modesL2Of inp).isEmpty)) = false := by
  by_contra hb
  rw [Bool.not_eq_false] at hb
  unfold MASTER.buildErr at h
  simp only [MASTER.scenOf] at h
  split_ifs at h <;> simp_all

/-- C2 amended: in run_scenario_master each active new location does carry
a binary open variable that scales its capacity bound and its fixed opening
cost, but the binary is not a free decision: in every completed run, every
feasible solution opens every active new location (binary equal to 1),
because line 688 forces the sum of the binaries to the cardinality of the
active set. -/
theorem C2_new_locations_forced_open :
    ∀ (inp : MASTER.In) (ssN : String → ℚ) (x : Assign),
      MASTER.buildErr inp = none →
      MASTER.Feasible (MASTER.scenOf inp ssN) x →
      (∀ n ∈ (MASTER.scenOf inp ssN).New_Locs, x.bin n = 1) ∧
      (MASTER.hasF2n (MASTER.scenOf inp ssN) = true →
        ∀ n ∈ (MASTER.scenOf inp ssN).New_Locs,
          MASTER.nlOutbound (MASTER.scenOf inp ssN) x n ≤
            (MASTER.scenOf inp ssN).nlCap n * x.bin n) := by
  intro inp ssN x herr hf
  constructor
  · intro n hn
    have hne : (MASTER.scenOf inp ssN).New_Locs ≠ [] := List.ne_nil_of_mem hn
    have h2n : MASTER.hasF2n (MASTER.scenOf inp ssN) = true := by
      have hc3 := buildErr_none_no_binKeyError inp herr
      have ha : (MASTER.newLocsOf inp).isEmpty = false :=
        isEmpty_false_of_ne_nil hne
      rw [ha] at hc3
      simp only [Bool.not_false, Bool.true_and, Bool.or_eq_false_iff] at hc3
      unfold MASTER.hasF2n
      simp only [MASTER.scenOf]
      simp [ha, hc3.1, hc3.2]
    exact master_bins_forced_one (MASTER.scenOf inp ssN) x hf h2n n hn
  · intro h2n
    obtain ⟨-, -, -, -, -, -, -, -, -, hnl, -⟩ := hf
    exact hnl h2n

/-- C2 witness: a completed default-network run with a concrete feasible
point, on which every new-location binary is pinned to 1 and the capacity
link holds. -/
theorem C2_new_locations_forced_open_witness :
    xMW2.bin "HUDTG" = 1 ∧
    MASTER.nlOutbound (MASTER.scenOf inpMW2 ssZ) xMW2 "HUDTG" ≤
      (MASTER.scenOf inpMW2 ssZ).nlCap "HUDTG" * xMW2.bin "HUDTG" := by
  have h := C2_new_locations_forced_open inpMW2 ssZ xMW2
    (by simp [MASTER.buildErr, MASTER.scenOf, MASTER.newLocsOf, MASTER.dcsOf,
      MASTER.modesL2Of, MASTER.hasF1, MASTER.hasF2, MASTER.hasF2n, MASTER.hasF3,
      MASTER.plantsOf, MASTER.crossdocksOf, MASTER.retailersOf, MASTER.modesL1Of,
      MASTER.modesL3Of, MASTER.modeKnown, MASTER.totalDemandIn, inpMW2, wDemand,
      newLocCapacityDefault, dataDefault, NewLocsAll, DcsAll, PlantsAll,
      CrossdocksAll] <;> norm_num) feasMW2
  refine ⟨h.1 "HUDTG" ?_, h.2 rfl "HUDTG" ?_⟩ <;>
    simp [MASTER.scenOf, MASTER.newLocsOf, inpMW2, NewLocsAll]

-- ======================================================
-- Claim C3
-- ======================================================

/-- C3 counterexample: with no active plants and no new locations, the
crossdock-balance family is skipped (it is generated only when both the f1
and f2 variable dictionaries are nonempty, MASTER.py line 648), and the
solved model admits a feasible point whose crossdock ATVIE ships 5 units
outbound with zero inbound. -/
theorem C3_counterexample :
    ∃ x, MASTER.Feasible (MASTER.scenOf inpC3 ssZ) x ∧
      MASTER.cdInbound (MASTER.scenOf inpC3 ssZ) x "ATVIE" ≠
        MASTER.cdOutbound (MASTER.scenOf inpC3 ssZ) x "ATVIE" := by
  refine ⟨xC3, feasC3, ?_⟩
  simp [MASTER.cdInbound, MASTER.cdOutbound, MASTER.scenOf, MASTER.plantsOf,
    MASTER.dcsOf, MASTER.modesL1Of, MASTER.modesL2Of, inpC3, xC3, sumOver,
    DcsAll, PlantsAll]

/-- C3 amended: flow conservation holds at every DC and crossdock of every
feasible solution whenever the adjacent variable families were generated:
unconditionally in SC1F, Scenario_Setting_For_SC1F and SC2F_uns, and in
run_scenario_master when the f3 family exists (DC balance) respectively
the f1 and f2 families exist (crossdock balance); with an empty adjacent
family the constraint is skipped and conservation can fail. -/
theorem C3_conservation :
    (∀ (inp : MASTER.In) (ssN : String → ℚ) (x : Assign),
      MASTER.Feasible (MASTER.scenOf inp ssN) x →
      (MASTER.hasF3 (MASTER.scenOf inp ssN) = true →
        ∀ d ∈ (MASTER.scenOf inp ssN).Dcs,
          MASTER.dcInbound (MASTER.scenOf inp ssN) x d =
            MASTER.dcOutbound (MASTER.scenOf inp ssN) x d) ∧
      ((MASTER.hasF1 (MASTER.scenOf inp ssN) = true ∧
        MASTER.hasF2 (MASTER.scenOf inp ssN) = true) →
        ∀ c ∈ (MASTER.scenOf inp ssN).Crossdocks,
          MASTER.cdInbound (MASTER.scenOf inp ssN) x c =
            MASTER.cdOutbound (MASTER.scenOf inp ssN) x c)) ∧
    (∀ (inp : SC2F.In) (x : Assign), SC2F.Feasible inp x →
      (∀ d ∈ DcsAll, SC2F.dcInbound x d = SC2F.dcOutbound inp x d) ∧
      (∀ c ∈ CrossdocksAll, SC2F.cdInbound x c = SC2F.cdOutbound x c)) ∧
    (∀ (inp : SC1F.In) (x : Assign), SC1F.Feasible inp x →
      (∀ d ∈ DcsAll, SC1F.dcInbound x d = SC1F.dcOutbound inp x d) ∧
      (∀ c ∈ CrossdocksAll, SC1F.cdInbound x c = SC1F.cdOutbound x c)) ∧
    (∀ (inp : SCEN1F.In) (x : Assign), SCEN1F.Feasible inp x →
      (∀ d ∈ DcsAll, SC1F.dcInbound x d = SC1F.dcOutbound (SCEN1F.toSC1F inp) x d) ∧
      (∀ c ∈ CrossdocksAll, SC1F.cdInbound x c = SC1F.cdOutbound x c)) := by
  refine ⟨?_, ?_, ?_, ?_⟩
  · intro inp ssN x hf
    obtain ⟨-, -, -, -, -, -, hdc, hcd, -⟩ := hf
    exact ⟨hdc, hcd⟩
  · intro inp x hf
    obtain ⟨-, -, -, -, -, -, -, hdc, hcd, -⟩ := hf
    exact ⟨hdc, hcd⟩
  · intro inp x hf
    obtain ⟨-, -, -, -, hdc, hcd, -⟩ := hf
    exact ⟨hdc, hcd⟩
  · intro inp x hf
    obtain ⟨⟨-, -, -, -, hdc, hcd, -⟩, -⟩ := hf
    exact ⟨hdc, hcd⟩

/-- C3 witness: conservation evaluated at PED and ATVIE on concrete
feasible points of all four variants. -/
theorem C3_conservation_witness :
    (MASTER.dcInbound (MASTER.scenOf inpMW ssZ) xMW "PED" =
      MASTER.dcOutbound (MASTER.scenOf inpMW ssZ) xMW "PED") ∧
    (MASTER.cdInbound (MASTER.scenOf inpMW ssZ) xMW "ATVIE" =
      MASTER.cdOutbound (MASTER.scenOf inpMW ssZ) xMW "ATVIE") ∧
    (SC2F.dcInbound xSlack "PED" = SC2F.dcOutbound inpS2 xSlack "PED") ∧
    (SC1F.dcInbound xMW "PED" = SC1F.dcOutbound inpS1 xMW "PED") ∧
    (SC1F.dcInbound xMW "PED" = SC1F.dcOutbound (SCEN1F.toSC1F inpSc1) xMW "PED") := by
  have hM := C3_conservation.1 inpMW ssZ xMW feasMW
  have hS2 := C3_conservation.2.1 inpS2 xSlack feasS2
  have hS1 := C3_conservation.2.2.1 inpS1 xMW feasS1
  have hSc := C3_conservation.2.2.2 inpSc1 xMW feasSc1
  refine ⟨hM.1 rfl "PED" ?_, hM.2 ⟨rfl, rfl⟩ "ATVIE" ?_, hS2.1 "PED" ?_,
    hS1.1 "PED" ?_, hSc.1 "PED" ?_⟩ <;>
    simp [MASTER.scenOf, MASTER.dcsOf, MASTER.crossdocksOf, inpMW, DcsAll,
      CrossdocksAll]

-- ======================================================
-- Claim C4
-- ======================================================

/-- C4: every scenario-run variant adds the aggregate emission constraint
Total_CO2 at most CO2_base times (1 - CO_2_percentage) unconditionally, so
every feasible (in particular every optimal) solution respects the cap;
Total_CO2 is in each variant the sum of production, all-layer transport and
last-mile emissions. -/
theorem C4_emission_cap :
    (∀ (inp : MASTER.In) (ssN : String → ℚ) (x : Assign),
      MASTER.Feasible (MASTER.scenOf inp ssN) x →
      MASTER.Total_CO2 (MASTER.scenOf inp ssN) x ≤
        inp.CO2base * (1 - inp.CO2percentage)) ∧
    (∀ (inp : SC2F.In) (x : Assign), SC2F.Feasible inp x →
      SC2F.Total_CO2 inp x ≤ inp.CO2base * (1 - inp.CO2percentage)) ∧
    (∀ (inp : SC1F.In) (x : Assign), SC1F.Feasible inp x →
      SC1F.Total_CO2 inp x ≤ inp.CO2base * (1 - inp.CO2percentage)) ∧
    (∀ (inp : SCEN1F.In) (x : Assign), SCEN1F.Feasible inp x →
      SCEN1F.Total_CO2 inp x ≤ inp.CO2base * (1 - inp.CO2percentage)) := by
  refine ⟨?_, ?_, ?_, ?_⟩
  · intro inp ssN x hf
    obtain ⟨-, -, -, -, -, -, -, -, -, -, hco2, -⟩ := hf
    exact hco2
  · intro inp x hf
    obtain ⟨-, -, -, -, -, -, -, -, -, -, -, hco2, -⟩ := hf
    exact hco2
  · intro inp x hf
    obtain ⟨-, -, -, -, -, -, -, hco2⟩ := hf
    exact hco2
  · intro inp x hf
    obtain ⟨⟨-, -, -, -, -, -, -, hco2⟩, -⟩ := hf
    exact hco2

/-- C4 witness: the cap evaluated on concrete feasible points of all four
variants. -/
theorem C4_emission_cap_witness :
    (MASTER.Total_CO2 (MASTER.scenOf inpMW ssZ) xMW ≤
      inpMW.CO2base * (1 - inpMW.CO2percentage)) ∧
    (SC2F.Total_CO2 inpS2 xSlack ≤ inpS2.CO2base * (1 - inpS2.CO2percentage)) ∧
    (SC1F.Total_CO2 inpS1 xMW ≤ inpS1.CO2base * (1 - inpS1.CO2percentage)) ∧
    (SCEN1F.Total_CO2 inpSc1 xMW ≤ inpSc1.CO2base * (1 - inpSc1.CO2percentage)) :=
  ⟨C4_emission_cap.1 inpMW ssZ xMW feasMW,
   C4_emission_cap.2.1 inpS2 xSlack feasS2,
   C4_emission_cap.2.2.1 inpS1 xMW feasS1,
   C4_emission_cap.2.2.2 inpSc1 xMW feasSc1⟩

-- ======================================================
-- Claim C5
-- ======================================================

/-- C5: contrary to the comments at Scenario_Setting_For_SC2F_uns.py line
539 and Scenario_Setting_For_SC1F.py line 481, volcano=True does not block
air transport in those two variants: the air-indexed flow variables are all
generated, no zeroing constraint is added (the mode lists lose air only
after the model and objective are fully built), and the volcano run admits
feasible solutions shipping positive quantities by air on every layer; the
constraint system is moreover identical to the volcano=False run. -/
theorem C5_volcano_air_not_blocked :
    (∃ x, SC2F.Feasible inpS2V x ∧
      0 < x.f1 "TW" "ATVIE" "air" ∧ 0 < x.f2 "ATVIE" "PED" "air" ∧
      0 < x.f3 "PED" "FLUXC" "air") ∧
    (∃ y, SCEN1F.Feasible inpSc1V y ∧ 0 < y.f1 "TW" "ATVIE" "air") ∧
    (∀ x, SC2F.Feasible inpS2V x ↔ SC2F.Feasible inpS2 x) := by
  refine ⟨⟨xAir, feasS2V, ?_, ?_, ?_⟩, ⟨xMWair, feasSc1V, ?_⟩, fun x => Iff.rfl⟩ <;>
    norm_num [xAir, xMWair]

-- ======================================================
-- Claim C6
-- ======================================================

/-- C6: on any non-optimal status no scenario-run variant returns a result:
the first solution-value read (gurobi attribute access, which is status
dependent) raises, so the call propagates a distinguishable exception and
never returns cost or emission values fabricated from a non-solution; on
the optimal status extraction succeeds, and the sweep drivers additionally
keep a record only for GRB.OPTIMAL. -/
theorem C6_status_readback :
    ∀ st : GStatus, st ≠ .optimal →
      (∀ mv : MASTER.Vals, exOk (MASTER.extract st mv) = false) ∧
      (∀ sv : SC2F.Vals, exOk (SC2F.extract st sv) = false) ∧
      (∀ v1 : SC1F.Vals, exOk (SC1F.extract st v1) = false) ∧
      (∀ v2 : SC1F.Vals, exOk (SCEN1F.extract st v2) = false) ∧
      sweepKeeps st = false ∧
      (∀ mv : MASTER.Vals, exOk (MASTER.extract .optimal mv) = true) ∧
      (∀ sv : SC2F.Vals, exOk (SC2F.extract .optimal sv) = true) := by
  intro st hst
  cases st with
  | optimal => exact absurd rfl hst
  | infeasible =>
      refine ⟨fun mv => rfl, fun sv => rfl, fun v1 => rfl, fun v2 => rfl, rfl,
        fun mv => rfl, fun sv => rfl⟩
  | infOrUnbd =>
      refine ⟨fun mv => rfl, fun sv => rfl, fun v1 => rfl, fun v2 => rfl, rfl,
        fun mv => rfl, fun sv => rfl⟩
  | unbounded =>
      refine ⟨fun mv => rfl, fun sv => rfl, fun v1 => rfl, fun v2 => rfl, rfl,
        fun mv => rfl, fun sv => rfl⟩

/-- C6 witness: the read-back outcome at the infeasible status with default
solved-value records. -/
theorem C6_status_readback_witness :
    exOk (MASTER.extract .infeasible {}) = false ∧
    exOk (SC2F.extract .infeasible {}) = false ∧
    exOk (SC1F.extract .infeasible {}) = false ∧
    exOk (SCEN1F.extract .infeasible {}) = false ∧
    sweepKeeps .infeasible = false := by
  have h := C6_status_readback .infeasible (by intro h; cases h)
  exact ⟨h.1 {}, h.2.1 {}, h.2.2.1 {}, h.2.2.2.1 {}, h.2.2.2.2.1⟩

-- ======================================================
-- Claim C7
-- ======================================================

/-- Changing only the CO2 target of an invocation changes only the pct
field of the resolved scenario. -/
theorem master_scenOf_pct (inp : MASTER.In) (ssN : String → ℚ) (t : ℚ) :
    MASTER.scenOf { inp with CO2percentage := t } ssN =
      { MASTER.scenOf inp ssN with pct := t } := rfl

/-- Tightening the target shrinks the feasible set: every point feasible at
the tighter target t2 is feasible at the looser target t1, provided the
baseline is nonnegative (only the cap constraint mentions the target). -/
theorem master_feasible_pct_mono (s : MASTER.Scen) (t1 t2 : ℚ)
    (hb : 0 ≤ s.CO2base) (ht : t1 ≤ t2) (x : Assign)
    (hf : MASTER.Feasible { s with pct := t2 } x) :
    MASTER.Feasible { s with pct := t1 } x := by
  obtain ⟨h1, h2, h3, h4, h5, h6, h7, h8, h9, h10, h11, h12, h13, h14, h15,
    h16, h17⟩ := hf
  refine ⟨h1, h2, h3, h4, h5, h6, h7, h8, h9, h10, ?_, h12, h13, h14, h15,
    h16, h17⟩
  have hcap : s.CO2base * (1 - t2) ≤ s.CO2base * (1 - t1) :=
    mul_le_mul_of_nonneg_left (by linarith) hb
  have h2cap : MASTER.Total_CO2 { s with pct := t2 } x ≤ s.CO2base * (1 - t2) := h11
  show MASTER.Total_CO2 { s with pct := t1 } x ≤ s.CO2base * (1 - t1)
  have he : MASTER.Total_CO2 { s with pct := t1 } x =
      MASTER.Total_CO2 { s with pct := t2 } x := rfl
  rw [he]
  exact le_trans h2cap hcap

/-- C7: two runs of run_scenario_master identical except for the CO2
reduction target, both reporting an optimal objective value, satisfy
monotonicity: the tighter target's optimum is at least the looser one's.
The nonnegativity of the baseline (true of the default 1582.42366689614 and
of any physical baseline) is the one extra hypothesis: the objective does
not mention the target, and the cap is the only constraint that does. -/
theorem C7_co2_monotonicity (inp : MASTER.In) (ssN : String → ℚ)
    (t1 t2 v1 v2 : ℚ) (hb : 0 ≤ inp.CO2base) (ht : t1 ≤ t2)
    (h1 : MASTER.OptimalValue (MASTER.scenOf { inp with CO2percentage := t1 } ssN) v1)
    (h2 : MASTER.OptimalValue (MASTER.scenOf { inp with CO2percentage := t2 } ssN) v2) :
    v1 ≤ v2 := by
  rw [master_scenOf_pct] at h1 h2
  obtain ⟨⟨x2, hx2f, hx2o⟩, -⟩ := h2
  obtain ⟨-, hmin⟩ := h1
  have hv1 := hmin x2 (master_feasible_pct_mono (MASTER.scenOf inp ssN) t1 t2 hb ht x2 hx2f)
  have hobj : MASTER.Obj { MASTER.scenOf inp ssN with pct := t1 } x2 =
      MASTER.Obj { MASTER.scenOf inp ssN with pct := t2 } x2 := rfl
  rw [hobj, hx2o] at hv1
  exact hv1

/-- On the empty-network invocation the objective is the constant 0,
whatever the target and the assignment. -/
theorem c7_obj_zero (t : ℚ) (y : Assign) :
    MASTER.Obj (MASTER.scenOf { inpC7 with CO2percentage := t } ssZ) y = 0 := by
  have hP : (MASTER.scenOf { inpC7 with CO2percentage := t } ssZ).Plants = [] := rfl
  have hC : (MASTER.scenOf { inpC7 with CO2percentage := t } ssZ).Crossdocks = [] := rfl
  have hN : (MASTER.scenOf { inpC7 with CO2percentage := t } ssZ).New_Locs = [] := rfl
  have hD : (MASTER.scenOf { inpC7 with CO2percentage := t } ssZ).Dcs = [] := rfl
  simp only [MASTER.Obj, MASTER.Sourcing_L1, MASTER.Handling_L2, MASTER.Handling_L3,
    MASTER.LastMile_Cost, MASTER.CO2_Mfg, MASTER.CO2_prod_L1, MASTER.CO2_prod_new,
    MASTER.Total_Transport, MASTER.Total_InvCost, MASTER.Cost_NewLoc_var,
    MASTER.Cost_NewLoc_fixed, hP, hC, hN, hD, sumOver_nil, sumOver_zero]
  norm_num

/-- On the empty-network invocation the all-zero point is feasible for any
target t with t at most 1; stated for a generic target through the cap
bound hypothesis. -/
theorem c7_feas_zero (t : ℚ) (h : 0 ≤ 1 - t) :
    MASTER.Feasible (MASTER.scenOf { inpC7 with CO2percentage := t } ssZ) zeroAssign := by
  have hP : (MASTER.scenOf { inpC7 with CO2percentage := t } ssZ).Plants = [] := rfl
  have hC : (MASTER.scenOf { inpC7 with CO2percentage := t } ssZ).Crossdocks = [] := rfl
  have hN : (MASTER.scenOf { inpC7 with CO2percentage := t } ssZ).New_Locs = [] := rfl
  have hD : (MASTER.scenOf { inpC7 with CO2percentage := t } ssZ).Dcs = [] := rfl
  have hco2 : MASTER.Total_CO2 (MASTER.scenOf { inpC7 with CO2percentage := t } ssZ)
      zeroAssign = 0 := by
    simp only [MASTER.Total_CO2, MASTER.CO2_prod_L1, MASTER.CO2_prod_new,
      MASTER.CO2_tr_L1, MASTER.CO2_tr_L2, MASTER.CO2_tr_L2_new, MASTER.CO2_tr_L3,
      MASTER.LastMile_CO2, hP, hC, hN, hD, sumOver_nil, sumOver_zero]
    norm_num
  have hF1 : MASTER.hasF1 (MASTER.scenOf { inpC7 with CO2percentage := t } ssZ) = false := rfl
  have hF2 : MASTER.hasF2 (MASTER.scenOf { inpC7 with CO2percentage := t } ssZ) = false := rfl
  have hF2n : MASTER.hasF2n (MASTER.scenOf { inpC7 with CO2percentage := t } ssZ) = false := rfl
  have hF3 : MASTER.hasF3 (MASTER.scenOf { inpC7 with CO2percentage := t } ssZ) = false := rfl
  have hsz : (MASTER.scenOf { inpC7 with CO2percentage := t } ssZ).suez = false := rfl
  refine ⟨?_, ?_, ?_, ?_, ?_, ?_, ?_, ?_, ?_, ?_, ?_, ?_, ?_, ?_, ?_, ?_, ?_⟩
  · simp [hP]
  · simp [hC]
  · simp [hN]
  · simp [hD]
  · intro hg; rw [hF2n] at hg; simp at hg
  · intro hg; rw [hF3] at hg; simp at hg
  · intro hg; rw [hF3] at hg; simp at hg
  · intro hg; rw [hF1] at hg; simp at hg
  · intro hg; rw [hF3] at hg; simp at hg
  · intro hg; rw [hF2n] at hg; simp at hg
  · rw [hco2]
    have hcb : (MASTER.scenOf { inpC7 with CO2percentage := t } ssZ).CO2base *
        (1 - (MASTER.scenOf { inpC7 with CO2percentage := t } ssZ).pct) =
        1582.42366689614 * (1 - t) := rfl
    rw [hcb]
    positivity
  · rw [hN]; rfl
  · intro hg; rw [hsz] at hg; simp at hg
  · intro hg; rw [hF1] at hg; simp at hg
  · intro hg; rw [hF2] at hg; simp at hg
  · intro hg; rw [hF2n] at hg; simp at hg
  · intro hg; rw [hF3] at hg; simp at hg

/-- C7 witness: on the empty-network invocation the model at either target
is feasible with constant objective 0, so both targets report the optimal
value 0, and the theorem instance gives 0 at most 0. -/
theorem C7_co2_monotonicity_witness :
    MASTER.OptimalValue (MASTER.scenOf { inpC7 with CO2percentage := 0.4 } ssZ) 0 ∧
    MASTER.OptimalValue (MASTER.scenOf { inpC7 with CO2percentage := 0.5 } ssZ) 0 ∧
    (0 : ℚ) ≤ 0 := by
  have h04 : MASTER.OptimalValue (MASTER.scenOf { inpC7 with CO2percentage := 0.4 } ssZ) 0 :=
    ⟨⟨zeroAssign, c7_feas_zero 0.4 (by norm_num), c7_obj_zero 0.4 zeroAssign⟩,
     fun y hy => le_of_eq (c7_obj_zero 0.4 y).symm⟩
  have h05 : MASTER.OptimalValue (MASTER.scenOf { inpC7 with CO2percentage := 0.5 } ssZ) 0 :=
    ⟨⟨zeroAssign, c7_feas_zero 0.5 (by norm_num), c7_obj_zero 0.5 zeroAssign⟩,
     fun y hy => le_of_eq (c7_obj_zero 0.5 y).symm⟩
  exact ⟨h04, h05, C7_co2_monotonicity inpC7 ssZ 0.4 0.5 0 0
    (by norm_num [inpC7]) (by norm_num) h04 h05⟩

-- ======================================================
-- Claim C8
-- ======================================================

/-- C9 counterexample: a trade-war invocation returns with the caller's
sourcing-cost mapping scaled in place by the tariff (MASTER.py lines
341-343), and every invocation returns with the caller's data mapping
mutated by the hardcoded SS write of line 235. -/
theorem C9_counterexample :
    MASTER.sourcingAfter inpC9 "TW" ≠ inpC9.sourcingCost "TW" ∧
    MASTER.dataAfter inpC9 ≠ inpC9.data := by
  constructor
  · simp [MASTER.sourcingAfter, inpC9, sourcingCostDefault] <;> norm_num
  · intro h
    have hss := congrArg DataTable.ss h
    simp [MASTER.dataAfter, inpC9, dataDefault, ssHardcoded] at hss

/-- C9 amended: run_scenario_master leaves the caller-supplied demand,
DC-capacity, handling, production-CO2, new-location (capacity, opening,
operation, CO2), emission-factor and distance mappings untouched, but it
does mutate two caller-supplied mappings in place: the data table receives
the hardcoded SS column unconditionally (its other columns are preserved),
and under trade_war every sourcing-cost entry is scaled by tariff_rate;
the SC2F slack variant unconditionally writes five derived columns
(holding, lead time, Z-score, density and the hardcoded SS) into the
caller-supplied data mapping, preserving its index and t column. -/
theorem C9_frame_effects :
    ∀ (inp : MASTER.In) (inpU : SC2F.In) (zcol phicol : List ℚ),
      MASTER.demandAfter inp = inp.demand ∧
      MASTER.dcCapacityAfter inp = inp.dcCapacity ∧
      MASTER.handlingDcAfter inp = inp.handlingDc ∧
      MASTER.handlingCrossdockAfter inp = inp.handlingCrossdock ∧
      MASTER.co2ProdAfter inp = inp.co2ProdKgPerUnit ∧
      MASTER.newLocCapacityAfter inp = inp.newLocCapacity ∧
      MASTER.newLocOpeningCostAfter inp = inp.newLocOpeningCost ∧
      MASTER.newLocOperationCostAfter inp = inp.newLocOperationCost ∧
      MASTER.newLocCO2After inp = inp.newLocCO2 ∧
      MASTER.co2EmissionFactorAfter inp = inp.co2EmissionFactor ∧
      MASTER.dist1After inp = inp.dist1 ∧
      MASTER.dist2After inp = inp.dist2 ∧
      MASTER.dist2newAfter inp = inp.dist2new ∧
      MASTER.dist3After inp = inp.dist3 ∧
      (MASTER.dataAfter inp).modes = inp.data.modes ∧
      (MASTER.dataAfter inp).t = inp.data.t ∧
      (MASTER.dataAfter inp).hcol = inp.data.hcol ∧
      (MASTER.dataAfter inp).lt = inp.data.lt ∧
      (MASTER.dataAfter inp).zcol = inp.data.zcol ∧
      (MASTER.dataAfter inp).phicol = inp.data.phicol ∧
      (MASTER.dataAfter inp).ss = some ssHardcoded ∧
      (inp.tradeWar = false → MASTER.sourcingAfter inp = inp.sourcingCost) ∧
      (inp.tradeWar = true →
        ∀ p, MASTER.sourcingAfter inp p = inp.sourcingCost p * inp.tariffRate) ∧
      (SC2F.dataAfter inpU zcol phicol).modes = inpU.data.modes ∧
      (SC2F.dataAfter inpU zcol phicol).t = inpU.data.t ∧
      (SC2F.dataAfter inpU zcol phicol).hcol = some [0.85, 0.85, 0.85] ∧
      (SC2F.dataAfter inpU zcol phicol).lt = some [1/2, 48, 10] ∧
      (SC2F.dataAfter inpU zcol phicol).zcol = some zcol ∧
      (SC2F.dataAfter inpU zcol phicol).phicol = some phicol ∧
      (SC2F.dataAfter inpU zcol phicol).ss = some ssHardcoded := by
  intro inp inpU zcol phicol
  refine ⟨rfl, rfl, rfl, rfl, rfl, rfl, rfl, rfl, rfl, rfl, rfl, rfl, rfl, rfl,
    rfl, rfl, rfl, rfl, rfl, rfl, rfl, ?_, ?_, rfl, rfl, rfl, rfl, rfl, rfl, rfl⟩
  · intro h; simp [MASTER.sourcingAfter, h]
  · intro h p; simp [MASTER.sourcingAfter, h]

/-- C9 witness: the frame effects evaluated on the trade-war invocation and
a default slack-variant invocation. -/
theorem C9_frame_effects_witness :
    MASTER.demandAfter inpC9 = inpC9.demand ∧
    (MASTER.dataAfter inpC9).ss = some ssHardcoded ∧
    MASTER.sourcingAfter inpC9 "SHA" = inpC9.sourcingCost "SHA" * inpC9.tariffRate ∧
    (SC2F.dataAfter {} [0] [0]).ss = some ssHardcoded := by
  obtain ⟨h1, -, -, -, -, -, -, -, -, -, -, -, -, -, -, -, -, -, -, -,
    h21, -, h23, -, -, -, -, -, -, h30⟩ := C9_frame_effects inpC9 {} [0] [0]
  exact ⟨h1, h21, h23 rfl "SHA", h30⟩

-- ======================================================
-- Claim C10
-- ======================================================

set_option maxHeartbeats 6400000 in
/-- C10: calling run_scenario_master with an empty layer-3 mode list while
the default 111000 units of retailer demand are positive builds without
error, generates no Demand constraint at all, and the zero-delivery point
(all flows zero, all binaries forced open) is feasible and optimal, so the
solver reports optimality with zero units delivered; nothing in the model
or its constraints records the unmet demand. -/
theorem C10_silent_unmet_demand :
    MASTER.buildErr inpC10 = none ∧
    MASTER.demandRows (MASTER.scenOf inpC10 ssZ) = [] ∧
    MASTER.totalDemand (MASTER.scenOf inpC10 ssZ) = 111000 ∧
    MASTER.Feasible (MASTER.scenOf inpC10 ssZ) xOpen ∧
    (sumOver (MASTER.scenOf inpC10 ssZ).Retailers fun r =>
      MASTER.retailerInbound (MASTER.scenOf inpC10 ssZ) xOpen r) = 0 ∧
    (∀ y, MASTER.Feasible (MASTER.scenOf inpC10 ssZ) y →
      MASTER.Obj (MASTER.scenOf inpC10 ssZ) xOpen ≤
        MASTER.Obj (MASTER.scenOf inpC10 ssZ) y) := by
  refine ⟨?_, rfl, ?_, feasC10, ?_, ?_⟩
  · simp [MASTER.buildErr, MASTER.scenOf, MASTER.newLocsOf, MASTER.dcsOf,
      MASTER.modesL2Of, MASTER.hasF1, MASTER.hasF2, MASTER.hasF2n, MASTER.hasF3,
      MASTER.plantsOf, MASTER.crossdocksOf, MASTER.retailersOf, MASTER.modesL1Of,
      MASTER.modesL3Of, MASTER.modeKnown, MASTER.totalDemandIn, inpC10,
      newLocCapacityDefault, NewLocsAll, DcsAll, PlantsAll, CrossdocksAll,
      demandDefault] <;> norm_num
  · simp [MASTER.totalDemand, MASTER.scenOf, inpC10, demandDefault] <;> norm_num
  · simp [MASTER.retailerInbound, MASTER.scenOf, MASTER.modesL3Of, MASTER.dcsOf,
      MASTER.retailersOf, inpC10, demandDefault, DcsAll, sumOver, sumOver_nil,
      sumOver_zero]
  · intro y hy
    have hsL3 : (MASTER.scenOf inpC10 ssZ).ModesL3 = [] := rfl
    have hbins := master_bins_forced_one (MASTER.scenOf inpC10 ssZ) y hy rfl
    obtain ⟨h1, h2, h3, h4, -, -, -, -, -, -, -, -, -⟩ := hy
    have hobj0 : MASTER.Obj (MASTER.scenOf inpC10 ssZ) xOpen = 36000000 := by
      simp [MASTER.Obj, MASTER.Sourcing_L1, MASTER.Handling_L2, MASTER.Handling_L3,
        MASTER.LastMile_Cost, MASTER.CO2_Mfg, MASTER.CO2_prod_L1, MASTER.CO2_prod_new,
        MASTER.Total_Transport, MASTER.Total_InvCost, MASTER.Cost_NewLoc_var,
        MASTER.Cost_NewLoc_fixed, MASTER.scenOf, MASTER.plantsOf, MASTER.crossdocksOf,
        MASTER.newLocsOf, MASTER.dcsOf, MASTER.retailersOf, MASTER.modesL1Of,
        MASTER.modesL2Of, MASTER.modesL3Of, inpC10, xOpen, zeroAssign,
        newLocOpeningCostDefault, NewLocsAll, DcsAll, PlantsAll, CrossdocksAll,
        demandDefault, sumOver, sumOver_nil, sumOver_zero] <;> norm_num
    have hcs : ∀ p ∈ (MASTER.scenOf inpC10 ssZ).Plants,
        0 ≤ (MASTER.scenOf inpC10 ssZ).sourcing p := by
      simp [MASTER.scenOf, MASTER.plantsOf, inpC10, PlantsAll,
        sourcingCostDefault, List.forall_mem_cons] <;> norm_num
    have hch2 : ∀ c ∈ (MASTER.scenOf inpC10 ssZ).Crossdocks,
        0 ≤ (MASTER.scenOf inpC10 ssZ).handlingCd c := by
      simp [MASTER.scenOf, MASTER.crossdocksOf, inpC10, CrossdocksAll,
        handlingCrossdockDefault, List.forall_mem_cons] <;> norm_num
    have hch3 : ∀ d ∈ (MASTER.scenOf inpC10 ssZ).Dcs,
        0 ≤ (MASTER.scenOf inpC10 ssZ).handlingDc d := by
      simp [MASTER.scenOf, MASTER.dcsOf, inpC10, DcsAll,
        handlingDcDefault, List.forall_mem_cons] <;> norm_num
    have hlm : (0 : ℚ) ≤ (MASTER.scenOf inpC10 ssZ).lastmileCost := by
      simp [MASTER.scenOf, inpC10] <;> norm_num
    have hcoT : (0 : ℚ) ≤ (MASTER.scenOf inpC10 ssZ).co2CostT := by
      simp [MASTER.scenOf, inpC10] <;> norm_num
    have hcoTN : (0 : ℚ) ≤ (MASTER.scenOf inpC10 ssZ).co2CostTNew := by
      simp [MASTER.scenOf, inpC10] <;> norm_num
    have hcp : ∀ p ∈ (MASTER.scenOf inpC10 ssZ).Plants,
        0 ≤ (MASTER.scenOf inpC10 ssZ).co2prod p / 1000 := by
      simp [MASTER.scenOf, MASTER.plantsOf, inpC10, PlantsAll,
        co2ProdDefault, List.forall_mem_cons] <;> norm_num
    have hnp : ∀ n ∈ (MASTER.scenOf inpC10 ssZ).New_Locs,
        0 ≤ (MASTER.scenOf inpC10 ssZ).nlCO2 n / 1000 := by
      simp [MASTER.scenOf, MASTER.newLocsOf, inpC10, NewLocsAll,
        newLocCO2Default, List.forall_mem_cons] <;> norm_num
    have ht1 : ∀ mo ∈ (MASTER.scenOf inpC10 ssZ).ModesL1,
        ∀ p ∈ (MASTER.scenOf inpC10 ssZ).Plants,
        ∀ c ∈ (MASTER.scenOf inpC10 ssZ).Crossdocks,
        0 ≤ (MASTER.scenOf inpC10 ssZ).tau mo *
          (MASTER.scenOf inpC10 ssZ).dist1 p c * (MASTER.scenOf inpC10 ssZ).pw := by
      simp [MASTER.scenOf, MASTER.plantsOf, MASTER.crossdocksOf, MASTER.modesL1Of,
        inpC10, PlantsAll, CrossdocksAll, dist1Default, colLookup, lookupQ,
        List.forall_mem_cons] <;> norm_num
    have ht2 : ∀ mo ∈ (MASTER.scenOf inpC10 ssZ).ModesL2,
        ∀ c ∈ (MASTER.scenOf inpC10 ssZ).Crossdocks,
        ∀ d ∈ (MASTER.scenOf inpC10 ssZ).Dcs,
        0 ≤ (MASTER.scenOf inpC10 ssZ).tau mo *
          (MASTER.scenOf inpC10 ssZ).dist2 c d * (MASTER.scenOf inpC10 ssZ).pw := by
      simp [MASTER.scenOf, MASTER.crossdocksOf, MASTER.dcsOf, MASTER.modesL2Of,
        inpC10, CrossdocksAll, DcsAll, dist2Default, colLookup, lookupQ,
        List.forall_mem_cons] <;> norm_num
    have ht2n : ∀ mo ∈ (MASTER.scenOf inpC10 ssZ).ModesL2,
        ∀ n ∈ (MASTER.scenOf inpC10 ssZ).New_Locs,
        ∀ d ∈ (MASTER.scenOf inpC10 ssZ).Dcs,
        0 ≤ (MASTER.scenOf inpC10 ssZ).tau mo *
          (MASTER.scenOf inpC10 ssZ).dist2new n d * (MASTER.scenOf inpC10 ssZ).pw := by
      simp [MASTER.scenOf, MASTER.newLocsOf, MASTER.dcsOf, MASTER.modesL2Of,
        inpC10, NewLocsAll, DcsAll, dist2newDefault, colLookup, lookupQ,
        List.forall_mem_cons] <;> norm_num
    have hic1 : ∀ mo ∈ (MASTER.scenOf inpC10 ssZ).ModesL1,
        0 ≤ MASTER.invCoef (MASTER.scenOf inpC10 ssZ) mo := by
      simp [MASTER.invCoef, MASTER.totalDemand, MASTER.scenOf, MASTER.modesL1Of,
        inpC10, demandDefault, ssHardcoded, colLookup, lookupQ, ltMasterDefault,
        List.forall_mem_cons] <;> norm_num
    have hic2 : ∀ mo ∈ (MASTER.scenOf inpC10 ssZ).ModesL2,
        0 ≤ MASTER.invCoef (MASTER.scenOf inpC10 ssZ) mo := by
      simp [MASTER.invCoef, MASTER.totalDemand, MASTER.scenOf, MASTER.modesL2Of,
        inpC10, demandDefault, ssHardcoded, colLookup, lookupQ, ltMasterDefault,
        List.forall_mem_cons] <;> norm_num
    have hnu : ∀ n ∈ (MASTER.scenOf inpC10 ssZ).New_Locs,
        0 ≤ (MASTER.scenOf inpC10 ssZ).nlUnit n := by
      simp [MASTER.scenOf, MASTER.newLocsOf, inpC10, NewLocsAll,
        newLocCapacityDefault, lookupQ, List.forall_mem_cons] <;> norm_num
    have hS : 0 ≤ MASTER.Sourcing_L1 (MASTER.scenOf inpC10 ssZ) y :=
      sum3_nonneg _ _ _ _ (fun p hp c hc mo hm =>
        mul_nonneg (hcs p hp) (h1 p hp c hc mo hm))
    have hH2 : 0 ≤ MASTER.Handling_L2 (MASTER.scenOf inpC10 ssZ) y :=
      sum3_nonneg _ _ _ _ (fun c hc d hd mo hm =>
        mul_nonneg (hch2 c hc) (h2 c hc d hd mo hm))
    have hH3 : 0 ≤ MASTER.Handling_L3 (MASTER.scenOf inpC10 ssZ) y :=
      sum3_nonneg _ _ _ _ (fun d hd r hr mo hm =>
        mul_nonneg (hch3 d hd) (h4 d hd r hr mo hm))
    have hLM : 0 ≤ MASTER.LastMile_Cost (MASTER.scenOf inpC10 ssZ) y :=
      mul_nonneg hlm (sum3_nonneg _ _ _ _ (fun d hd r hr mo hm => h4 d hd r hr mo hm))
    have hP1 : 0 ≤ MASTER.CO2_prod_L1 (MASTER.scenOf inpC10 ssZ) y :=
      sumOver_nonneg _ _ (fun p hp => mul_nonneg (hcp p hp)
        (sum2_nonneg _ _ _ (fun c hc mo hm => h1 p hp c hc mo hm)))
    have hPn : 0 ≤ MASTER.CO2_prod_new (MASTER.scenOf inpC10 ssZ) y :=
      sumOver_nonneg _ _ (fun n hn => mul_nonneg (hnp n hn)
        (sum2_nonneg _ _ _ (fun d hd mo hm => h3 n hn d hd mo hm)))
    have hMfg : 0 ≤ MASTER.CO2_Mfg (MASTER.scenOf inpC10 ssZ) y :=
      add_nonneg (mul_nonneg hcoT hP1) (mul_nonneg hcoTN hPn)
    have hT : 0 ≤ MASTER.Total_Transport (MASTER.scenOf inpC10 ssZ) y := by
      unfold MASTER.Total_Transport
      have a1 := sum3_nonneg (MASTER.scenOf inpC10 ssZ).ModesL1
        (MASTER.scenOf inpC10 ssZ).Plants (MASTER.scenOf inpC10 ssZ).Crossdocks
        (fun mo p c => (MASTER.scenOf inpC10 ssZ).tau mo *
          (MASTER.scenOf inpC10 ssZ).dist1 p c * (MASTER.scenOf inpC10 ssZ).pw *
          y.f1 p c mo)
        (fun mo hm p hp c hc => mul_nonneg (ht1 mo hm p hp c hc) (h1 p hp c hc mo hm))
      have a2 := sum3_nonneg (MASTER.scenOf inpC10 ssZ).ModesL2
        (MASTER.scenOf inpC10 ssZ).Crossdocks (MASTER.scenOf inpC10 ssZ).Dcs
        (fun mo c d => (MASTER.scenOf inpC10 ssZ).tau mo *
          (MASTER.scenOf inpC10 ssZ).dist2 c d * (MASTER.scenOf inpC10 ssZ).pw *
          y.f2 c d mo)
        (fun mo hm c hc d hd => mul_nonneg (ht2 mo hm c hc d hd) (h2 c hc d hd mo hm))
      have a3 := sum3_nonneg (MASTER.scenOf inpC10 ssZ).ModesL2
        (MASTER.scenOf inpC10 ssZ).New_Locs (MASTER.scenOf inpC10 ssZ).Dcs
        (fun mo n d => (MASTER.scenOf inpC10 ssZ).tau mo *
          (MASTER.scenOf inpC10 ssZ).dist2new n d * (MASTER.scenOf inpC10 ssZ).pw *
          y.f2n n d mo)
        (fun mo hm n hn d hd => mul_nonneg (ht2n mo hm n hn d hd) (h3 n hn d hd mo hm))
      have a4 := sum3_nonneg (MASTER.scenOf inpC10 ssZ).ModesL3
        (MASTER.scenOf inpC10 ssZ).Dcs (MASTER.scenOf inpC10 ssZ).Retailers
        (fun mo d r => (MASTER.scenOf inpC10 ssZ).tau mo *
          (MASTER.scenOf inpC10 ssZ).dist3 d r * (MASTER.scenOf inpC10 ssZ).pw *
          y.f3 d r mo)
        (fun mo hm => absurd (hsL3 ▸ hm) (List.not_mem_nil mo))
      linarith
    have hInv : 0 ≤ MASTER.Total_InvCost (MASTER.scenOf inpC10 ssZ) y := by
      unfold MASTER.Total_InvCost
      have a1 := sum3_nonneg (MASTER.scenOf inpC10 ssZ).Plants
        (MASTER.scenOf inpC10 ssZ).Crossdocks (MASTER.scenOf inpC10 ssZ).ModesL1
        (fun p c mo => y.f1 p c mo * MASTER.invCoef (MASTER.scenOf inpC10 ssZ) mo)
        (fun p hp c hc mo hm => mul_nonneg (h1 p hp c hc mo hm) (hic1 mo hm))
      have a2 := sum3_nonneg (MASTER.scenOf inpC10 ssZ).Crossdocks
        (MASTER.scenOf inpC10 ssZ).Dcs (MASTER.scenOf inpC10 ssZ).ModesL2
        (fun c d mo => y.f2 c d mo * MASTER.invCoef (MASTER.scenOf inpC10 ssZ) mo)
        (fun c hc d hd mo hm => mul_nonneg (h2 c hc d hd mo hm) (hic2 mo hm))
      have a3 := sum3_nonneg (MASTER.scenOf inpC10 ssZ).New_Locs
        (MASTER.scenOf inpC10 ssZ).Dcs (MASTER.scenOf inpC10 ssZ).ModesL2
        (fun n d mo => y.f2n n d mo * MASTER.invCoef (MASTER.scenOf inpC10 ssZ) mo)
        (fun n hn d hd mo hm => mul_nonneg (h3 n hn d hd mo hm) (hic2 mo hm))
      have a4 := sum3_nonneg (MASTER.scenOf inpC10 ssZ).Dcs
        (MASTER.scenOf inpC10 ssZ).Retailers (MASTER.scenOf inpC10 ssZ).ModesL3
        (fun d r mo => y.f3 d r mo * MASTER.invCoef (MASTER.scenOf inpC10 ssZ) mo)
        (fun d hd r hr mo hm => mul_nonneg (h4 d hd r hr mo hm) (hic1 mo (by
          rw [hsL3] at hm; cases hm)))
      linarith
    have hVar : 0 ≤ MASTER.Cost_NewLoc_var (MASTER.scenOf inpC10 ssZ) y :=
      sum3_nonneg _ _ _ _ (fun n hn d hd mo hm =>
        mul_nonneg (hnu n hn) (h3 n hn d hd mo hm))
    have hFix : MASTER.Cost_NewLoc_fixed (MASTER.scenOf inpC10 ssZ) y = 36000000 := by
      unfold MASTER.Cost_NewLoc_fixed
      rw [sumOver_congr (MASTER.scenOf inpC10 ssZ).New_Locs
        (fun n => (MASTER.scenOf inpC10 ssZ).nlOpen n * y.bin n)
        (fun n => (MASTER.scenOf inpC10 ssZ).nlOpen n)
        (fun n hn => by simp [hbins n hn])]
      simp [MASTER.scenOf, MASTER.newLocsOf, inpC10, NewLocsAll,
        newLocOpeningCostDefault, sumOver] <;> norm_num
    rw [hobj0]
    unfold MASTER.Obj
    linarith

/-- C10 witness: the optimality clause of the theorem applied to the
feasible zero-delivery point itself. -/
theorem C10_silent_unmet_demand_witness :
    MASTER.Obj (MASTER.scenOf inpC10 ssZ) xOpen ≤
      MASTER.Obj (MASTER.scenOf inpC10 ssZ) xOpen :=
  C10_silent_unmet_demand.2.2.2.2.2 xOpen feasC10

end TGE
